import Mathlib

/-!
Verification development for the `OR_datascience` knapsack notebook
(`src/knapsack/knapsack.ipynb`).

The notebook declares a binary knapsack model over items `I = 1..10` with
per-item profit `p` and weight `w`, a mutable capacity parameter `q`, the
objective `z = Σ p i * x i` (`obj_function`), the constraint
`Σ w i * x i ≤ q` (`cons_capacity`), and delegates the solve to an external
MILP solver.  A `parametric_analysis` helper re-sets `q` on the shared
instance and re-solves, mapped over capacities `qs = [20, 25, 30, 35, 40, 45]`.

We embed:
* the knapsack data model and the linear expressions of the objective and
  constraint, over explicit item lists and boolean selections;
* an exact solver (the external solver is not part of the repository, so it
  is modelled from the specification's §4.2 dynamic program);
* the seeded data generation, by embedding the semantics of CPython's
  `random` module (MT19937) that the notebook calls via `random.seed(0)`,
  `random.randrange(10, 50)` and `random.randrange(1, 10)`;
* the mutable-`q` instance state and the sweep driver.
-/

namespace Knapsack

/-- An item of the knapsack instance: a weight and a profit
(`w_i` and `p_i` in the notebook's data declarations). -/
structure Item where
  weight : Nat
  profit : Nat
deriving DecidableEq

/-- The objective expression `z = Σ_{i ∈ I} p_i * x_i` (`obj_function` in the
notebook), over an explicit boolean selection `x`. -/
def obj_function : List Item → List Bool → Nat
  | [], _ => 0
  | _ :: _, [] => 0
  | it :: items, b :: bs => cond b it.profit 0 + obj_function items bs

/-- The left-hand side `Σ_{i ∈ I} w_i * x_i` of the capacity constraint. -/
def total_weight : List Item → List Bool → Nat
  | [], _ => 0
  | _ :: _, [] => 0
  | it :: items, b :: bs => cond b it.weight 0 + total_weight items bs

/-- The capacity constraint `Σ_{i ∈ I} w_i * x_i ≤ q` (`cons_capacity` in the
notebook). -/
def cons_capacity (items : List Item) (bs : List Bool) (q : Nat) : Prop :=
  total_weight items bs ≤ q

/-- Modelled from the spec: the external MILP solver invoked by `solver.solve`
is not part of this repository; §4.2 substitutes the exact 0/1-knapsack
dynamic program with recurrence
`best(i, c) = max (best(i-1, c)) (profit i + best(i-1, c - weight i))`
when `weight i ≤ c`, else `best(i-1, c)`, and `best(0, c) = 0`. -/
def bestProfit : List Item → Nat → Nat
  | [], _ => 0
  | it :: items, c =>
    if it.weight ≤ c then
      max (bestProfit items c) (it.profit + bestProfit items (c - it.weight))
    else bestProfit items c

/-- Modelled from the spec: §4.2's back-tracking reconstruction of the selected
subset, including item `i` exactly when `best(i, c) ≠ best(i-1, c)`, that is,
when including the item strictly improves on the best value without it. -/
def solveSel : List Item → Nat → List Bool
  | [], _ => []
  | it :: items, c =>
    if it.weight ≤ c ∧ bestProfit items c < it.profit + bestProfit items (c - it.weight) then
      true :: solveSel items (c - it.weight)
    else
      false :: solveSel items c

/-- The only invalid-input condition of §7 that the solve path can hit:
a negative capacity. -/
inductive SolveError where
  | invalidInput
deriving DecidableEq

/-- A solve result: the produced selection plus the achieved objective value. -/
structure SolveResult where
  selection : List Bool
  objective : Nat
deriving DecidableEq

/-- Modelled from the spec: the solve operation (`solver.solve` delegates to
the external solver, which is not in the repository).  §7: a negative capacity
is rejected with an invalid-input error and no solve is attempted; otherwise
the exact optimal selection and its objective value are returned. -/
def solve (items : List Item) (q : Int) : Except SolveError SolveResult :=
  if q < 0 then .error .invalidInput
  else .ok ⟨solveSel items q.toNat, bestProfit items q.toNat⟩

/-- The ten items of the seeded notebook instance, profits and weights exactly
as recorded in the notebook's constructed instance
(objective expression `34*x[1] + 36*x[2] + ... + 32*x[10]` and constraint body
`4*x[1] + 9*x[2] + ... + 5*x[10]`). -/
def nbItems : List Item :=
  [⟨4, 34⟩, ⟨9, 36⟩, ⟨3, 12⟩, ⟨5, 26⟩, ⟨3, 42⟩,
   ⟨2, 41⟩, ⟨5, 35⟩, ⟨9, 29⟩, ⟨3, 40⟩, ⟨5, 32⟩]

/-- The model instance: the generated item set together with the mutable
capacity parameter `q` (`model.q` is declared `mutable=True`). -/
structure PInstance where
  items : List Item
  q : Int
deriving DecidableEq

/-- `instance.q.set_value(q)`: overwrite the capacity parameter, leaving the
item data untouched. -/
def set_value (inst : PInstance) (q : Int) : PInstance :=
  { inst with q := q }

/-- `parametric_analysis` from the notebook: set `q` on the shared mutable
instance, re-solve it, and return the objective value; the mutated instance is
threaded explicitly. -/
def parametric_analysis (inst : PInstance) (q : Int) :
    Except SolveError (Nat × PInstance) :=
  let inst' := set_value inst q
  (solve inst'.items inst'.q).map fun r => (r.objective, inst')

/-- `values = list(map(parametric_analysis, qs))`: the sweep driver.  A Python
exception raised by one call propagates out of `list(map(...))`, so the sweep
short-circuits at the first failing capacity. -/
def sweepValues (inst : PInstance) : List Int → Except SolveError (List Nat × PInstance)
  | [] => .ok ([], inst)
  | q :: qs => do
    let (v, inst') ← parametric_analysis inst q
    let (vs, inst'') ← sweepValues inst' qs
    return (v :: vs, inst'')

end Knapsack

/-!
The notebook generates its data with CPython's `random` module:
`random.seed(0)` followed, at `create_instance()`, by ten
`random.randrange(10, 50)` draws (the `getProfits` dict comprehension) and then
ten `random.randrange(1, 10)` draws (the `getWeights` per-index rule).  We
embed the relevant semantics of CPython's `_randommodule.c` / `random.py`:
the MT19937 generator, `getrandbits`, and `_randbelow`'s rejection loop.
-/

namespace PyRandom

/-- Truncation to 32 bits, the word size of MT19937. -/
def mask32 (x : Nat) : Nat := x % 4294967296

/-!
The 624-word MT19937 state vector is represented as a single natural number,
with word `i` occupying bits `[32*i, 32*i + 32)`; `wGet` and `wSet` read and
write one 32-bit word.  All stored words are kept below `2^32`.
-/

/-- Word `i` of the packed state vector. -/
def wGet (mt i : Nat) : Nat := (mt >>> (32 * i)) &&& 4294967295

/-- Overwrite word `i` of the packed state vector with `v` (a 32-bit value). -/
def wSet (mt i v : Nat) : Nat :=
  mt - (wGet mt i <<< (32 * i)) + (v <<< (32 * i))

/-- `n`-fold iteration of a loop body, first iteration innermost
(`for (k = n; k; k--) st = f(st);`). -/
def iterN (f : α → α) : Nat → α → α
  | 0, s => s
  | n + 1, s => iterN f n (f s)

/-- Loop body of `init_genrand` at position `i`:
`mt[i] = 1812433253 * (mt[i-1] ^ (mt[i-1] >> 30)) + i` (mod 2^32). -/
def igStep (st : Nat × Nat) : Nat × Nat :=
  let i := st.1
  let mt := st.2
  let prev := wGet mt (i - 1)
  (i + 1, wSet mt i (mask32 (1812433253 * (prev ^^^ (prev >>> 30)) + i)))

/-- `init_genrand(s)` from CPython's `_randommodule.c`: `mt[0] = s`, then 623
iterations of `igStep` for `i = 1 .. 623`. -/
def initGenrand (s : Nat) : Nat :=
  (iterN igStep 623 (1, wSet 0 0 (mask32 s))).2

/-- Loop body of the first mixing loop of `init_by_array`:
`mt[i] = (mt[i] ^ ((mt[i-1] ^ (mt[i-1] >> 30)) * 1664525)) + key[j] + j`
(mod 2^32), with `i` cycling through `1..623` (copying `mt[623]` into `mt[0]`
at each wrap) and `j` cycling through the key. -/
def ibaStep1 (key : List Nat) (st : Nat × Nat × Nat) : Nat × Nat × Nat :=
  let i := st.1
  let j := st.2.1
  let mt := st.2.2
  let prev := wGet mt (i - 1)
  let v := mask32 ((wGet mt i ^^^ mask32 ((prev ^^^ (prev >>> 30)) * 1664525))
    + key.getD j 0 + j)
  let mt1 := wSet mt i v
  let i1 := i + 1
  let j1 := j + 1
  let mt2 := if i1 ≥ 624 then wSet mt1 0 (wGet mt1 623) else mt1
  let i2 := if i1 ≥ 624 then 1 else i1
  let j2 := if j1 ≥ key.length then 0 else j1
  (i2, j2, mt2)

/-- Loop body of the second mixing loop of `init_by_array`:
`mt[i] = (mt[i] ^ ((mt[i-1] ^ (mt[i-1] >> 30)) * 1566083941)) - i` (mod 2^32),
with the same cycling of `i`. -/
def ibaStep2 (st : Nat × Nat) : Nat × Nat :=
  let i := st.1
  let mt := st.2
  let prev := wGet mt (i - 1)
  let x := wGet mt i ^^^ mask32 ((prev ^^^ (prev >>> 30)) * 1566083941)
  let v := mask32 (x + 4294967296 - mask32 i)
  let mt1 := wSet mt i v
  let i1 := i + 1
  let mt2 := if i1 ≥ 624 then wSet mt1 0 (wGet mt1 623) else mt1
  let i2 := if i1 ≥ 624 then 1 else i1
  (i2, mt2)

/-- `init_by_array(key)`: seed with 19650218, run `max(624, len(key))`
iterations of the first mixing loop and 623 of the second (the position `i`
carrying over between the loops), then force `mt[0] = 0x80000000`. -/
def initByArray (key : List Nat) : Nat :=
  let mt0 := initGenrand 19650218
  let p1 := iterN (ibaStep1 key) (max 624 key.length) (1, 0, mt0)
  let p2 := iterN ibaStep2 623 (p1.1, p1.2.2)
  wSet p2.2 0 2147483648

/-- One in-place step of the MT19937 state regeneration at position `kk`:
`y = (mt[kk] & 0x80000000) | (mt[kk+1 mod 624] & 0x7fffffff)`,
`mt[kk] = mt[kk+397 mod 624] ^ (y >> 1) ^ (y odd ? 0x9908b0df : 0)`. -/
def twistStep (st : Nat × Nat) : Nat × Nat :=
  let kk := st.1
  let mt := st.2
  let y := (wGet mt kk &&& 2147483648) ||| (wGet mt ((kk + 1) % 624) &&& 2147483647)
  let mag := if y % 2 = 1 then 2567483615 else 0
  (kk + 1, wSet mt kk ((wGet mt ((kk + 397) % 624)) ^^^ (y >>> 1) ^^^ mag))

/-- The full state-regeneration pass.  CPython writes the three loops of
`genrand_uint32` separately; since the update is in-place and sequential they
coincide with one uniform pass over `kk = 0 .. 623`. -/
def twist (mt : Nat) : Nat :=
  (iterN twistStep 624 (0, mt)).2

/-- The generator state: the packed 624-word state vector and the output
index. -/
structure MTState where
  mt : Nat
  index : Nat
deriving DecidableEq

/-- The MT19937 output tempering:
`y ^= y >> 11; y ^= (y << 7) & 0x9d2c5680; y ^= (y << 15) & 0xefc60000;
y ^= y >> 18`. -/
def temper (y0 : Nat) : Nat :=
  let y1 := y0 ^^^ (y0 >>> 11)
  let y2 := y1 ^^^ ((y1 <<< 7) &&& 2636928640)
  let y3 := y2 ^^^ ((y2 <<< 15) &&& 4022730752)
  y3 ^^^ (y3 >>> 18)

/-- `genrand_uint32`: regenerate when the index reaches 624, then output one
tempered word. -/
def genrandUint32 (s : MTState) : Nat × MTState :=
  let p := if s.index ≥ 624 then (twist s.mt, 0) else (s.mt, s.index)
  (temper (wGet p.1 p.2), ⟨p.1, p.2 + 1⟩)

/-- Split a non-negative integer seed into little-endian 32-bit words; the
first argument is fuel (the seed itself suffices). -/
def seedChunks : Nat → Nat → List Nat
  | 0, _ => []
  | _ + 1, 0 => []
  | fuel + 1, n => mask32 n :: seedChunks fuel (n / 4294967296)

/-- The key `random_seed` passes to `init_by_array`: the absolute value split
into 32-bit words, with `keymax = 1` (key `[0]`) for seed 0. -/
def seedKey (n : Nat) : List Nat :=
  if n = 0 then [0] else seedChunks n n

/-- `random.seed(n)` for a non-negative integer `n`: `init_by_array` on the
word-split seed, with the output index at 624 so the first draw regenerates. -/
def seedMT (n : Nat) : MTState :=
  ⟨initByArray (seedKey n), 624⟩

/-- `getrandbits(k)` for `0 < k ≤ 32`: the top `k` bits of one 32-bit
output. -/
def getrandbits (k : Nat) (s : MTState) : Nat × MTState :=
  let p := genrandUint32 s
  (p.1 >>> (32 - k), p.2)

/-- `n.bit_length()` for `n < 2^64`. -/
def bitLength (n : Nat) : Nat :=
  (List.range 64).foldl (fun acc k => if 2 ^ k ≤ n then k + 1 else acc) 0

/-- The rejection loop of `_randbelow`: draw `k`-bit values until one is
`< n`.  CPython's loop is unbounded; the fuel bounds the rejections actually
taken and `none` models non-termination of the loop. -/
def randbelowLoop (n k : Nat) : Nat → MTState → Option (Nat × MTState)
  | 0, _ => none
  | fuel + 1, s =>
    let p := getrandbits k s
    if p.1 < n then some p else randbelowLoop n k fuel p.2

/-- `_randbelow(n)`: rejection sampling with `k = n.bit_length()` bits. -/
def randbelow (n : Nat) (s : MTState) : Option (Nat × MTState) :=
  randbelowLoop n (bitLength n) 1000 s

/-- `random.randrange(lo, hi)` with step 1: `lo + _randbelow(hi - lo)`. -/
def randrange (lo hi : Nat) (s : MTState) : Option (Nat × MTState) :=
  (randbelow (hi - lo) s).map fun rs => (lo + rs.1, rs.2)

/-- Draw `n` values `randrange lo hi` in sequence from the stream. -/
def drawList (lo hi : Nat) : Nat → MTState → Option (List Nat × MTState)
  | 0, s => some ([], s)
  | n + 1, s => do
    let (v, s1) ← randrange lo hi s
    let (vs, s2) ← drawList lo hi n s1
    return (v :: vs, s2)

/-- `getProfits`: the dict comprehension
`{i: random.randrange(10, 50) for i in model.I}` draws all `n` profits in
index order from the shared stream. -/
def getProfits (n : Nat) (s : MTState) : Option (List Nat × MTState) :=
  drawList 10 50 n s

/-- `getWeights`: the per-index rule `random.randrange(1, 10)`, invoked once
per item after all profits are drawn (parameter declaration order `q, p, w` at
`create_instance()`). -/
def getWeights (n : Nat) (s : MTState) : Option (List Nat × MTState) :=
  drawList 1 10 n s

/-- Drawing the full item set from a given generator state: all `n` profits
first, then all `n` weights, paired into items. -/
def buildItems (n : Nat) (s : MTState) : Option (List Knapsack.Item) := do
  let (ps, s1) ← getProfits n s
  let (ws, _) ← getWeights n s1
  return (ps.zip ws).map fun pw => (⟨pw.2, pw.1⟩ : Knapsack.Item)

/-- The model builder: `random.seed(seed)` followed by `create_instance()`,
which draws all `n` profits and then all `n` weights from the single seeded
stream. -/
def genItems (n seed : Nat) : Option (List Knapsack.Item) :=
  buildItems n (seedMT seed)

/-- Helper for the contrasting draw order: profit and weight drawn alternately
for each item in turn. -/
def genInterleavedAux : Nat → MTState → Option (List Knapsack.Item)
  | 0, _ => some []
  | n + 1, s => do
    let (p, s1) ← randrange 10 50 s
    let (w, s2) ← randrange 1 10 s1
    let rest ← genInterleavedAux n s2
    return (⟨w, p⟩ : Knapsack.Item) :: rest

/-- A draw-order variant of the builder, for contrast: the same seeded stream,
but profit and weight drawn alternately per item. -/
def genItemsInterleaved (n seed : Nat) : Option (List Knapsack.Item) :=
  genInterleavedAux n (seedMT seed)


/-!
Checkpoint values of the seed-0 state computation, used to evaluate the
generator in bounded stages: the state after `init_genrand(19650218)`
(`mtIG`, with thirds `mtIGA`-`mtIGC`), after the first (`mtMix1`) and second
(`mtMix2`) mixing loops of `init_by_array([0])`, the final seeded state
(`mtSeed`), and the state after the first regeneration pass (`mtTW`).
-/

def mtIGA : Nat :=
  1051003669168937840174092018795272339192746317798327910538030579399801258022378402307657604890572486852775857285124622565306229469260776735250744768334774378547984676541891960820741005776210163729257153279155160132186270149162573312697940328421944621607374017230685808946788454587221502386517096679481521625654717224151489684498781891872284256455989341576850643730785160575641935468317859204927784833184460563134107059960174492448450562587325437563547347293169197246913208234717150572359022942312821904916315049564249381722386598772738994010882960532804759919139800904908667785066353531132654122595419045121630754965607215070436655500932850880645534707573411815073262667503714797479298966519664171545567635306615606499758343153011267313653582553386573772061728289521127916505963812377183815836117231443900400247849829968283615750879142680025313425444079964737823555488732151417095555757066964831598664773063185187695316816558997940447734993177639957905006838154872402479852901594896665154078442783660704608531603781688863439184583369331305923099148832453756141847986450217933785599785643208794424023419441719230898053564296870778557932299807173037537444468606144877805261926131645700948130732196045503826146951047095393596550063088302836902182853193143055848953413930146119017544672174855264608456242207942705382900567485238598948042509331760038902716023073753205908703365463034583596949876102097099189184410142501438563703078093302332676597961066351236508338803630283138561837583895218831336258536081776945387178

def mtIGB : Nat :=
  43451447770933355967655871035138949693569261124825171477259371368242040963630315041640600927062429357342263245072047913504023898976222663001529237181465201772843534221011158941461788237762698589261273801769281502502593118350248735333713311198202497828243017791061617341960439265842889406544782867384102031255415178900271700980034168162099017956864365589687933957192069187376259297852575715811388574171215432492658087185762998133264937618221271755098965785706070432997411298302669325798217537933293030347163471750845422681163572671323163202114877642119962417042471289236322169711500740026105874938956762201603260389777781630279713951086029849345573805932629935728933211559110808097128740387659360937505283811305307347869883257125318992063172672017615398536223451585974537588286022205134009526045686872405388374260265035160946462461317145380067221477742827625033291004988186600847047377754436956112252765415547548408556447351514012263030872155378162443767249075800305742610089963329250678542759130875153917902877000807677462921581614667852151540757676825924685240218932446899250696312449506135479343622804623859202371994529890468382846930685411934794688331648287209458802119989744293689297836832290230577568486221523698209302874511121874762150532638410906132104470889309461291278796138128439899576644934370820510807927041579775331321262853219456273416624914629492046704521098886302371997733497169681590999013636545589526730424048338678309150088059101227216260252295312930593924952910598006343530852486415054899957422866806481309347647590361328438947697292746295807809428922793414666431031814032861628969263850718323415981880030858167528846350251046504303358726259363323070269072187751201049724611599535900338130652159317711611833200261613695454102202814578620205541009402153224278689166045349627866295907532129503895413832810001764573153936452102111555030652334240483122102594841884380674317392563630683854541905006240664521198153740937166191474997625752436218240484367957684741526689649510263592542862349097987484326349923217637403156985861455776990955562277159694815042715216724617281559276212445232985599228436390356449552586460255915535860776483174844518320695425225063695481080178103231631950275973599455300666837807626044694234147242514012101510230019527491077792176108322681805294472844587867838741311282738328647507874489747241806324255865685263010191263492795301111565976750841965370576184466410593308712339528181219905472475204122126760987352893962695606471420148579799216517439021817837338880498212480863841635080417758859006076745928135992556866011781792223422737565911596816399712199640792654318509917637608884290031624551158142734411201386157483991292013621678138939288482992546376894032653839238558962841745275990259484118213751656221934669102001560497906162914383442900645772006269349662366806111990602419656871248887642639965754962717384557626116538075248782173671677328111889848696227829607958952219328265125408926725048538271658360205449107884774215457740765053921576049468809462583970011502335658

def mtIGC : Nat :=
  208035992059834220210739403860728342738800931043459486417504744921804576107301366385882394524307886925326709696410060582571046786712134496918680416680943980311066992226858813038158927200790845598215711110835894507175269770154890531204982837147618802169414808789689761340145628204325618684484621084722441958161688016912421324099288963862239707572182297748227280386198437174447562714349206330194231572762662762674053155475771665202461967933320018913447100034822422979762921114852233133745576130783196381780778154639938751526666234888584530838691192559067459885896673777031593894819048214030450001105630867808582019623280500818645748904258121605299616105273501469975390354896905351370065909776688882633566671587816910500850860633757388199674372573806022960141881055611948866582181676984992901211490256893552544053009758012815604042798812545932751839558253589243749120015197466527216261562425157060089434385830128221712921455503857981414724425113344425234417175596485899270224729087117754854529668640368446340138470234658099993888506482262882918737993134441175774420907183556006556526463607863094934465644577286327377037704901665089009686910392150759300282925219129503035871976228333770430160588331838335667898481327016830105004452391732752044350994760100926516599261747797281390254840875472538528767606952072030869182689372165871386955618806855235067576949371522032198239108243482701233143359722471448202830282418889507694547069068049773197101950269643427660226477930460568533378109402451791210314724223548313851322707445405534124002909836618286620068740688720762227438159581287608606979007047077319245053726311049863900624117476065832089243771857636626832662494462208127245772121616809155442789567803345765946573885776623664069176100079692189634384236874498656719501747099713977009082214178194971705202420499535057551529394526454211574038125338004498187581943207229472091046419387864450729573875311718378934041315910934674693377240215679983586441793675962165813957731444833946627423718897696178983896216097543480408996341236873686029800250376612942682082158541930206598690252769895348947245827935850549430483346058307848014055692746471339373928433310095514834074296951595754717943542698667398718909644596069252143036430309600858872971617811192664078310864514962828331614094999169920786326614212035776789143458809930508663990371339694271149807886149359711693811784257060711344307409870510493207320521197570493643070670858958055885207907195058910103345731933634800397703514352099817952273312921226080321446945314419529193267302596223066209665065443756642755255078392428758584543857761744476524374920968789096166138902962523083570649994679160976276586424438966943496969322277009454395600483862901564019202531392208093592700957074894522718485026768972550288661890842330424655167038151136012365036361483884514973446614021225448108623147155536215936181888046720453080012952087502092581354243002756331248243040618643785481021927273593332067938825043845604510396868901271281261990701233673381817195650457226690768655258116235663135494321079565151842548931440635388741939242526841972619747224493176243784629238255643119828729300652833451551107903937626346504260079736025996650121886304670342126140670814226971462008306821365184095047305248139834716961531905103022374809384807709539099990535679449363786203451346610419001592763364774384532905686160063821305162526801503935329890150221827120645857326418273027547465798232820534796485028692780345062515746159349045967689025544483589338489820734001859227622232745625708868862026593365493687220286709000573878933116152364531507635011829597319025322595421926559683282460316381945822613402947706812081580193965451605528010892672034869851760051379743483979344756547080682038408844290985335050352181949538449104613619606909510514664006024761547293430236429292852441708059399753500064257268629100166032086594139288096645995169302619349574327908753470249278155073089415324864136382563924908537983625256578397064874182882653799912165995469775796373822152617660669376848382903215502783482985764983475510232371871688353833066436151976891627380613272569881653227217696717075420346785687782629660043321847657674392464730753031162675313033245868503571273896513624174400867503818783040443045808586748316034617559153521274495271341416825989360978789221707637391395475082863475846321885345250031796204469497583492780024578728138648559916876191786179386168238276917298840244955770349716983631505438758557336510397735133651956910061719206852673297701165467794484156922122992283426321124181519735969450

def mtIG : Nat :=
  62685089405509111925910797243914719854890513935494713084094713797279779630627496305943786046941309007281293105221577504421353501605599255248785149356818580886163074212016138319710181437623915839386196989339984175865611290932895638485827512283879634622589907034847096838980553398268338905605705315464924834076955485269257682765843392777664062904318116756644819538761883164862381873685805923051342196114892111881287659915424456096361326051748180740843339721465950121631833352165428366344241754810081140762710579390137795215443629123183303201044796731629341661542390258966032612552126580439913324626563213547393121217728067632048719897064596438939163041106934301355643192260261867872030533878188557727018817797219012064641958276099544136480610826250078810896212505254064619595899307426216931651016613164877613570296351724055264357110051005104450572173606849938075379012356137114572525910752676385589168436483206759652170097284388598518122222819376116616668668677988651997615236221431416155794821321118852088948452164682783715959922435191327367306488124638818446090532334864386359317233873012285172875896330714873881780586230596002778688422250420590175698633544778262136505069053046737202152515000629854634631225453245996997340762744567896897683212149150732909707719966588817675821630380251456266588599804209831660991462715440400663143017564651072677052296295930367391822676512661642282350234567553218318066651318510488484545671729568971887621684270732981974442582657502555066960418690332945218280990034155505553171409775830458482159957769211244505225186771766058316021949327301666418107251589707938065072144733816368743637495699897181007119363672460040974223449086641663004605507793014252452324150238463715514559124307431648478948480649031081489229583165223570218974125422263886587593014744330199975749832650568652404661542746543584685860761547297457070273167102314576665676644281998277713093924236551494770138725647883566971887853912300960949802636372591951717316415323846182747445131420005722224687602711525724505110953736568981699982016588947035894059736087136235396798804019434387781559696138411966704777989194870090051835909943079457649936020314680876367897457337488804889342331824364904005266943816631681518612047693872607083945336048154993001716858914072302230374294986610531277637599664647525761147514008899238689946802093944865612982597431648203028809043429562401771290925843222821220221381984318518256971016750121270624021542153515130386081256853244444367484914891752438843250797295149886721543902585582757118492217204960123203770309672216674331373413106027454841661967870247822106376003696537006476355273043676224973894002060133928765135363584693312631060562155459381152426642778209514491263275588735458188352331628933634618912177576995916817414488324819680108333628484452298807271017999262374749573133359090629722111402666396222385680310709557844049479865847370371052888681758484468279513921172987571336140289500145715018352119752770038578015899178947425013401300127437407370742417936980607757405410607208376626705322894782663757703548808362869195819947150150865798288136994832911439410269353230208345410503242199606186650417333579047848825834242257112060317620885151293421378661990197161958015730358249113963865616811805417654957899792836277351433146683316643158745577273742588847277405020330699298979666450169324546781433015633218213248018986767013905101885085728066131985273947793365444250280947765884488609302913437528001802423347517836456663978922564542901160075954132077499502061844004777463229898312792357201472450520034421742281215395838957029567457078867297742321364249618062920323524100796395855490398720473188748064226082130624085325443879193454095100721902723688608983702297802922465778395428510531587340343771240068168890882622394112252370643121994567113348850616779414952571984309063927162547038575769391208822294299053225776973195785292510157058775147687493667385905281728614066936870793483631104130486096422866739022254251631022238998824784309871214211336594149372534724828516536519652291847191320934127662041939033266344757810255450761243406685982638804631309022215852991706323223872506356963395668107287976200691035733250165615782065576159415303394415966535152327550107294310945533761757937224536792146711105700674959937207778503501562879445241463662142281185819506210181780721218897488871995890898495582077564387715740371190275817001449471008660140255770382875594805433223352833476546594040372715841292252983175468170554585838014797017976570586587751089146553833551413146641975370517778330202052282190648141351908509904289169596729111939424597802445523234111653813513351586367960175769546506050051493655326103823629699245586418016468660736051425039803522537493270385743437525903109563398688573456345292160567787373069854610200635728800730405759403691875432721043746233636765094325962472698626875833148826372580999341547042531665331710768365982359935219565301595187067772247975847412037958098451506998773182171027695752045356894447709388159633645629545493246019135820915900506906032640701290570506299065346661219735445730896769091171352761432210047450382980030625592142825700677633624952217795344145832513082782540989616413040988227257601039794195623143595351637462190706636535912449334420058581521218743569834717812580171279915160794789675762903718339466089866492140118823551337811927493524761760551434001520245324751568861558716803095718510972066599595072196209156923318071322517301806566620458899402166430591631348363311478802800521980525250372511467674969151489645720009661369785217086930227581405674315978920044798755483144811069077253851302610194739624245401270682864202663540116818822475326676741780611737275972111438408802370422377608919256570335384654037352344114105999356653180812503717835632673409647782213628400383443178293619326757139369589058612122088577237252104060778375287897543799460272211546791798613974575310224299012205778134871255296492395729078221387894808011355820153110205338707003138385845672884757408327786763143168159295742358655797897448897721796416755370

def mtM1A : Nat :=
  62685089405509111925910797243914719854890513935494713084094713797279779630627496305943786046941309007281293105221577504421353501605599255248785149356818580886163074212016138319710181437623915839386196989339984175865611290932895638485827512283879634622589907034847096838980553398268338905605705315464924834076955485269257682765843392777664062904318116756644819538761883164862381873685805923051342196114892111881287659915424456096361326051748180740843339721465950121631833352165428366344241754810081140762710579390137795215443629123183303201044796731629341661542390258966032612552126580439913324626563213547393121217728067632048719897064596438939163041106934301355643192260261867872030533878188557727018817797219012064641958276099544136480610826250078810896212505254064619595899307426216931651016613164877613570296351724055264357110051005104450572173606849938075379012356137114572525910752676385589168436483206759652170097284388598518122222819376116616668668677988651997615236221431416155794821321118852088948452164682783715959922435191327367306488124638818446090532334864386359317233873012285172875896330714873881780586230596002778688422250420590175698633544778262136505069053046737202152515000629854634631225453245996997340762744567896897683212149150732909707719966588817675821630380251456266588599804209831660991462715440400663143017564651072677052296295930367391822676512661642282350234567553218318066651318510488484545671729568971887621684270732981974442582657502555066960418690332945218280990034155505553171409775830458482159957769211244505225186771766058316021949327301666418107251589707938065072144733816368743637495699897181007119363672460040974223449086641663004605507793014252452324150238463715514559124307431648478948480649031081489229583165223570218974125422263886587593014744330199975749832650568652404661542746543584685860761547297457070273167102314576665676644281998277713093924236551494770138725647883566971887853912300960949802636372591951717316415323846182747445131420005722224687602711525724505110953736568981699982016588947035894059736087136235396798804019434387781559696138411966704777989194870090051835909943079457649936020314680876367897457337488804889342331824364904005266943816631681518612047693872607083945336048154993001716858914072302230374294986610531277637599664647525761147514008899238689946802093944865612982597431648203028809043429562401771290925843222821220221381984318518256971016750121270624021542153515130386081256853244444367484914891752438843250797295149886721543902585582757118492217204960123203770309672216674331373413106027454841661967870247822106376003696537006476355273043676224973894002060133928765135363584693312631060562155459381152426642778209514491263275588735458188352331628933634618912177576995916817414488324819680108333628484452298807271017999262374749573133359090629722111402666396222385680310709557844049479865847370371052888681758484468279513921172987571336140289500145715018352119752770038578015899178947425013401300127437407370742417936980607757405410607208376626705322894782663757703548808362869195819947150150865798288136994832911439410269353230208345410503242199606186650417333579047848825834242257112060317620885151293421378661990197161958015730358249113963865616811805417654957899792836277351433146683316643158745577273742588847277405020330699298979666450169324546781433015633218213248018986767013905101885085728066131985273947793365444250280947765884488609302913437528001802423347517836456663978922564542901160075954132077499502061844004777463229898312792357201472450520034421742281215395838957029567457078867297742321364249618062920323524100796395855490398720473188748064226082130624085325443879193454095100721902723688608983702297802922465778395428510531587340343771240068168890882622394112252370643121994567113348850616779414952571984309063927162547038575769391208822294299053225776973195785292510157058775147687493667385905281728614066936870793483631104130486096422866739022254251631022238998824784309871214211336594149372534724828516536519652291847191320934127662041939033266344757810255450761243406685982638804631309022215852991706323223872506356963395668107287976200691035733250165615782065576159415303394415966535152327550107294310945533761757937224536792146711105700674959937207778503501562879445241463662142281185819506210181780721218897488871995890898495582077564387715740371190275817001449471008660140255770382875594805433223352833476546594040372715841292252983175468170554585838014797017976570586587751089146553833551413147619240948643708327929513271836410642699003482918124109615575362515862323075097907723691693070221629821048137195232560368279734876538633406083275387252265848889117410806610147854510467017534433257155167362911361476125689044031872683167556634429953665354182159757814073838396814945905995363409321431960310377515365610032995887295281157725197552843904508371728374567407143322104802071319963958220939149992008211876135775695506037124969843302014376331610240072998820100630948997460442208099421049832465813660695021484896608867784307216598237771453444963431636854399614415579676122521008111620886177403580790702219796604774976177898282703647042502611172803531205416952013687470011187023778696515225561269256225951952593254051662517124631095674632271427316229361311360334864655777943145334826166140869789855334966721671692379933996373721649572595459586718456915601108638732797398033326157683747937648286645096569083128632407607848791140297655804246602192227784320652667205605745517734239450920059389687448613740424482777810871509201966987737157611856297535305747217049775846549575625179159745883325642297348963769627210647769545375185963581664361115060071622171261171254983956526001985840594440411597288542078417592496360701756416600460807314173954498979333584816709361696041364726318246036571803253677769530635491785161937303772447717652310891239054994423511521842100586389547923333688044546496826629332454147054746650855679700749442796474477835643421834591667723767796570125982222200222076047851403885888151449491114

def mtM1B : Nat :=
  62685089405509111925910797243914719854890513935494713084094713797279779630627496305943786046941309007281293105221577504421353501605599255248785149356818580886163074212016138319710181437623915839386196989339984175865611290932895638485827512283879634622589907034847096838980553398268338905605705315464924834076955485269257682765843392777664062904318116756644819538761883164862381873685805923051342196114892111881287659915424456096361326051748180740843339721465950121631833352165428366344241754810081140762710579390137795215443629123183303201044796731629341661542390258966032612552126580439913324626563213547393121217728067632048719897064596438939163041106934301355643192260261867872030533878188557727018817797219012064641958276099544136480610826250078810896212505254064619595899307426216931651016613164877613570296351724055264357110051005104450572173606849938075379012356137114572525910752676385589168436483206759652170097284388598518122222819376116616668668677988651997615236221431416155794821321118852088948452164682783715959922435191327367306488124638818446090532334864386359317233873012285172875896330714873881780586230596002778688422250420590175698633544778262136505069053046737202152515000629854634631225453245996997340762744567896897683212149150732909707719966588817675821630380251456266588599804209831660991462715440400663143017564651072677052296295930367391822676512661642282350234567553218318066651318510488484545671729568971887621684270732981974442582657502555066960418690332945218280990034155505553171409775830458482159957769211244505225186771766058316021949327301666418107251589707938065072144733816368743637495699897181007119363672460040974223449086641663004605507793014252452324150238463715514559124307431648478948480649031081489229583165223570218974125422263886587593014744330199975749832650568652404661542746543584685860761547297457070273167102314576665676644281998277713093924236551494770138725647883566971887853912300960949802636372591951717316415323846182747445131420005722224687602711525724505110953736568981699982016588947035894059736087136235396798804019434387781559696138411966704777989194870090051835909943079457649936020314680876367897457337488804889342331824364904005266943816631681518612047693872607083945336048154993001716858914072302230374294986610531277637599664647525761147514008899238689946802093944865612982597431648203028809043429562401771290925843222821220221381984318518256971016750121270624021542153515130386081256853244444367484914891752438843250797295149886721543902585582757118492217204960123203770309672216674331373413106027454841661967870247822106376003696537006476355273043676224973894002060133928765135363584693312631060562155459381152426642778209514491263275588735458188352331628933634618912177576995916817414488324819680108333628484452298807271017999262374749573133359090629722111402666396222385680310709557844049479865847370371052888681758484468279513921172987571336140289500145715018352119752770038578015899178947425013401300127437407370742417936980692594177611664006664207595558453909576119225681161189036916368540071406667540935102091557778465734672527251067488579215719882549655822434514476633974179844051446772801820271726613894605665221735027158204398204354269736385143386344052990009205009967308244353270505335445588529082723193543634035276006183993861365614529335424285247613354356293896596247662433444789477213874279454366533715335769349465953692932653765800218314291507754280564431508390292312101276659235253839067203865574204322349677723582982100837543961360631980755780974144938658565971818351564090801322651207227844599172388577654758134170739462076030956915912989112617780717903496679487820464862832623954282675688001698072608096585063769375028121419140190933610517045834967099438895159263465660262482310897258510683521580187797734936586477553382506531489488673153869111780155396169086617646857308045826832236377260962028608724082863954203596247523256964627826186655842243748635407268142573737550506725530364003185652305393113801086891327109807976323466455575630664610332449925863294732288078886632624509497796457788065875095048519844740662034005908066380229481855776137424758261646718709857099360379713364935332069974071500556485753669043251957288200663288709713648134560037710436721140830175401040697143948705051447728488875697354638300627783500904057701416990703033520202025766654927537700624353550271029772077355610206315793300581422897733024750790654989103054255076544041562487598092522374893214596570218202518142239338214903859074167159651100217736557813280414951801551774770007275698042111005388070434006006124476145452650295183622418597361871744742283168589892208825732926376991632990141943660056536566565156330758970024601457002833493698465981643413012560024543726854321270244930371631229241734997210791897006378845822028486694446848436406399224877296015567656960310992811011198424833717251842046387893621390916757884552781178504720552498620904014835484412435870625306395937409254372106599326097848173601048518303068057103106772831369842714081161949086151381255321697873311265802788641836410240036433784433755828512871552818176442997111608482983625827781097882206549893599841100659047824465841831807842748011744418137354891746880686027690471966338274976257490870214496994247281837827235266904995118227774542627118375314561925677188877461288981061436445985327990796781016145988571875775534420670844001714672691864870746351083257817946479739712078985226327183966126021349952593655876720013587680410350375651261848429127052739859167486784343304258429001041358380913982886909396495464404079400644527747824642791512180176488123075072973369732400831844948218111649509002007908122225529141159348659436569906599392808150917831928022977896357298323764789825203416608013283099177860652918795372944648493551009784255905461261872656433590919054129264827349067593190422984619060444472291157822275680427030312251541633352801793156945857186315878193296255767362793065603356449515782580334875630644624367836132548618523646536649376310446521724006921415677610

def mtM1C : Nat :=
  62685089405509111925910797243914719854890513935494713084094713797279779630627496305943786046941309007281293105221577504421353501605599255248785149356818580886163074212016138319710181437623915839386196989339984175865611290932895638485827512283879634622589907034847096838980553398268338905605705315464924834076955485269257682765843392777664062904318116756644819538761883164862381873685805923051342196114892111881287659915424456096361326051748180740843339721465950121631833352165428366344241754810081140762710579390137795215443629123183303201044796731629341661542390258966032612552126580439913324626563213547393121217728067632048719897064596438939163041106934301355643192260261867872030533878188557727018817797219012064641958276099544136480610826250078810896212505254064619595899307426216931651016613164877613570296351724055264357110051005104450572173606849938075379012356137114572525910752676385589168436483206759652170097284388598518122222819376116616668668677988651997615236221431416155794821321118852088948452164682783715959922435191327367306488124638818446090532334864386359317233873012285172875896330714873881780586230596002778688422250420590175698633544778262136505069053046737202152515000629854634631225453245996997340762744567896897683212149150732909707719966588817675821630380251456266588599804209831660991462715440400663143017564651072677052296295930367391822676512661642282350234567553218318066651318510488484545671729568971887621684270732981974442582657502555066960418690332945218280801041426899809651003355802167491503699877971506938015492692444235641069363282067471739156470326342868356209598877340199560141026842949101927173250392697101411183405114441184996747495834802494816884330011065057825814300701512878556701023735769566870043554668191978387077156733037545613564781875410759377297245846963065914901939383224572740598963447657333069841255407247183274314527642774315177874319255279635028686368622351003545435283420428223867240692022857082217787684133002777021906035297594077147905208451883834706496183639092223885685842501857646287489613515797063834516025306830157531592876228437954214937514275526143569049194709347094540324100016942211046194035563113138957731131122018610214850689463825041341248930561895202844896625910168714978800972198804657343577060547600299005178830396529465949166109645489759004928466977402292805674309429369526421621276853527040959173790152677302662341549433876605539951411067494946559252159092364618075137211147691998224736221981669785008861174777615437081491898174723341122490748561519957942508517215578805523233098901868593491816743550500033893837705264778481327608907610251779461780959749200334788511702267251156171738579566988578199814194016276759892868530219307080188513794544414133859763970339475651160756585482935748977855294984431004813203090159274545208076798469531591302173616438680526982105610003280962944788296015640830684977401121045405851682964420535080661733795714348770402307451317797737557809520242017350799980868029128344144839783051970957610923676593687007638528244646853295469716732933469342578629502266066127267499710058325000845510678301052325277987081026351775694277163154362130751796794507551370720017077817028517167782790423748993286743826856904044231044074612094868923074890535687445248181850146027485414854785996262880286406222553671416926849505099387116102209387433538450560921745839227718741131746765806542338531555848019425203084649033804684943709379636110957809831334974000990898381071860947765279757629832954857635719451137636885412038928681822748417495695412024729088677411520425499668981524575162372439028141652928624531089379014963392806279682610497700357707179136680766305900757445925548471312492855006668420885058763016182030948932451644553906078690339544069996969287793512498055417960314280104988470628517615144302693315700723139925816555081961607867084090315666981320726760051997462942439546444081001257498305439242642870593546449738820581293804950256396046233701733811417879193746554831490464524564883216259222174785360766021796183068655223309942129026224530281322910555895009264343544441377098730511184586836578570978974635235332102148031962307021605888936386519542142861557305076626529654254389947609228777239803573886514109445631910994005065140020393791060915624097860454301805789611887811638759254621720963588155148075759995878141192471137222668369040773012681734929830035529828339602308075308127733171840899871928363852882263096816312882024184376087708159588347605794749886902972635442848878893147377167034249319989125727746019331173361534434257835506883611409644295522051128278597072862106046487125422197132429662690130370466733859119671400001451692984290919449954735995025458378838155083574209829447419913671289445836222372473814790394122699166445321112142150583431359569348263981296362991298296044535599502047826175409478595822255493284995034872450428522504724016422957461766309403129658101757935338547013761712533426696396669231842886363586515280644483360483121475193029223030310744348702332331840019260255069675810429567298839990683630909476144329523713043391020130920096381657008680227444414797612712231944235133879896787015165567083158466843236717410326900183062687409307520805690090911123433982345881702601336230077272158298785777015214113530059427252401150914282325827474498558598358378848835491932935274320442511878931386094549709100291902983111331661137728872943488713116855191970329172676469960150159167480584625737699364425070606766173721611452246924419990401380036470362306544160469312195913954202085365535328559813759884460905007759645906397181674068139921022733353968054697238811968521170730364451954190072405227893506710324437280124169650450481283429978832649457623204414530149124975256481317304445653674723210332250991661550909767289622187097454247912835112337381850377481100488012360313168823067968805730546995454031440328113742418228400831669315533760469898501940047161851951132120589555010729253932358467284361645051792723970486489689185086918675698859731857951164979560178385937592377824529546331543210

def mtMix1 : Nat :=
  80332019833464000606730933673450576913197636754390915770646117196048408435703270924672506210331105059214400757775622964515444557325317693531404590346832451873603011770212132037814586732947424375964443595382929528460349521305633972320254216209119099234962967915678083099766751871073929169859073496883167623133590677488351976288262326895898982236416752196047351944216635145673446886370158469855028083456985799294368533651837282789936413698171554379342731711390452468518406094153803642684410244174598181474258118086803605161504386032327079512656456529604285836329873244638306470976963337724988854804781102105192063933756523388983553287225468580937366153880723928623087813643458418574899904062398986539471574321164099292773323028451604313809835675928746572660200345063884426873783243113419634991260049379712187187758239215087387973949389128239594564484364609872473764787988818464027208176505468879881537668780588800039561069424735276506953429173728004763848277191267779098633727566273907980999510811200410256819886958762479635526696272851273473617912605150072687145552050399957200578382788432463379357724381588458571915476619659899036377664332537713848114261288629583551318772171184476817938349057019384820168625997330724931526162927282147808417995363846164053865818271755847695576375261069692182551190913180871248370479639298468127484303234769945674235175542271976957518905208225599422222314212833724116974866930432442998503368574426585775254556137227165225042956922134572146359658534850858068523506359713893762449660334180888364664789046736581179638857526005073602291561735172566867455909321251782333857972134093659275746496041392034502304275584323333821106753580047926555237769141283750005257076151754310760755233458206341305502154298951651861255957960598381868875870914994354946833684806266727695496607941245945673100785412285508634275483558849839280606176096227569398442954246607712900062883801211866707347912885948316337585163496156940965643669233445035272069271563043993410522997113058385027223659188580442293097914254301333928107465079258060600196799420510930313173233921775859817182703022368916284761819841408790901080091049621197579350317576013607583346773873725427960841302998840962564820660341315107852942073896397668822898954530249230761807729573861001312072910110399685036691159503004441253279471911280408507713009083129233265771056610389642895317505303318653587730944261765786365194382509874989362387823164726787300620384734673182068278231603153666920272110937315941634040097925685568902976508327984738778172908223000505365680279051343251717984870795022093663950887600462263472430334826884038376514242133477086658854529434223810459517604066207023696202393037633175058510263562734283587795960245707907737373435928876072751507529403027642177015004832012718830606770865176402488368740413670822923055110947444314832223244064916484143507771934167708516667165693516766946267066381139191991440322733421879487547197466434889447083829775820726880832056912106542778477957784579905859024540875372223665610245370922345695948704309254382396126084389804325819421656697171284310828412953491370733160848182479179425105330890510304793845163796160039625699960746021303052608146872827779913771301403393933899341674653435457554336290086033933403188777438240992003144754274570362041927156502157614416015791064308779712509805462282212824247964079567345911211836331418903195080858191323820772435046229919968559846598054856223614234751464677026978663592833021932131890223863958488557751491929790870681634352166306382551053641170653148513905065586371426231708094860319969199188695532125248416114620289163382319209793411273358594075752037420556118716174284285978968869543523463603468900068149176242819535207000347943939513684009629204695145325041863767583594338549819427003722583447738787732904687373697389686768425655696023441805569007306032471347818742334781865032994883722470073322517167763405493903008156744344263867720008667559588039200445195557318999051055455025195569376448939643833990213867505789065804525840317990487864426864930687128797713003319147051032515407446786178675045711594775298965938018090478180715108618828086128653946485579252388215428615579410211075316731894910963464679873257600916358821340704126863196327196356864471613526418091282165488107412289111579557436712064342352662432528489025628204182769414534853168053274242753007501456705760595123829802811744649845728697124768785264221577936459906439991787592093113687500565049236563249516631298169487501509594594033925185667580019087815818153905788385444015040729401296900846661253360540787055058372962676493669089800226055801605165366101076300590932435198977451334590672082740001304514763168343729041719486160834177722167150644654041331321654578110050932137683728863023056767278473978828534709959718467959561585531445134077002008324909673940482448564196026461151139704985911542576157063258251379941201243442127062137635271959749887380651977511009976937741733602024736085630906404574743787314243327500864322302549438576452382844035456609791876391353075229220425940526468802155542747390000525003581485314651256888653772881680853087710390760687151783568124203945922825579760514347153213388536423918343404544798594048876399158968330711781702247264835887433776492561338428998006920894516568243526705540141060671254647929900049988639089931099877326419393723874807335068878185187514563557027802255008664788097761410873442687901948430337131301348706577361621328109562259498047149414003581430280728540054722770641676113110109787937810282652877424751539807953722221495542458515646211138683933182529243782456810746863254271755420279794489511061300785021446837209939090850062986230461493385311926746789262151244125942541173412355902105236020178920242225989967101954220647294809592980731532108860157668558130486782206162682089934422499163109727308386331539048739868072814557729195687882318047742562626831438641742242381643541896826238272557423140129883763841575780602313477167126031691596324987187755956523305971390697334729007238199806212625415943499866477427211994

def mtM2A : Nat :=
  80332019833464000606730933673450576913197636754390915770646117196048408435703270924672506210331105059214400757775622964515444557325317693531404590346832451873603011770212132037814586732947424375964443595382929528460349521305633972320254216209119099234962967915678083099766751871073929169859073496883167623133590677488351976288262326895898982236416752196047351944216635145673446886370158469855028083456985799294368533651837282789936413698171554379342731711390452468518406094153803642684410244174598181474258118086803605161504386032327079512656456529604285836329873244638306470976963337724988854804781102105192063933756523388983553287225468580937366153880723928623087813643458418574899904062398986539471574321164099292773323028451604313809835675928746572660200345063884426873783243113419634991260049379712187187758239215087387973949389128239594564484364609872473764787988818464027208176505468879881537668780588800039561069424735276506953429173728004763848277191267779098633727566273907980999510811200410256819886958762479635526696272851273473617912605150072687145552050399957200578382788432463379357724381588458571915476619659899036377664332537713848114261288629583551318772171184476817938349057019384820168625997330724931526162927282147808417995363846164053865818271755847695576375261069692182551190913180871248370479639298468127484303234769945674235175542271976957518905208225599422222314212833724116974866930432442998503368574426585775254556137227165225042956922134572146359658534850858068523506359713893762449660334180888364664789046736581179638857526005073602291561735172566867455909321251782333857972134093659275746496041392034502304275584323333821106753580047926555237769141283750005257076151754310760755233458206341305502154298951651861255957960598381868875870914994354946833684806266727695496607941245945673100785412285508634275483558849839280606176096227569398442954246607712900062883801211866707347912885948316337585163496156940965643669233445035272069271563043993410522997113058385027223659188580442293097914254301333928107465079258060600196799420510930313173233921775859817182703022368916284761819841408790901080091049621197579350317576013607583346773873725427960841302998840962564820660341315107852942073896397668822898954530249230761807729573861001312072910110399685036691159503004441253279471911280408507713009083129233265771056610389642895317505303318653587730944261765786365194382509874989362387823164726787300620384734673182068278231603153666920272110937315941634040097925685568902976508327984738778172908223000505365680279051343251717984870795022093663950887600462263472430334826884038376514242133477086658854529434223810459517604066207023696202393037633175058510263562734283587795960245707907737373435928876072751507529403027642177015004832012718830606770865176402488368740413670822923055110947444314832223244064916484143507771934167708516667165693516766946267066381139191991440322733421879487547197466434889447083829775820726880832056912106542778477957784579905859024540875372223665610245370922345695948704309254382396126084389804325819421656697171284310828412953491370733160848182479179425105330890510304793845163796160039625699960746021303052608146872827779913771301403393933899341674653435457554336290086033933403188777438240992003144754274570362041927156502157614416015791064308779712509805462282212824247964079567345911211836331418903195080858191323820772435046229919968559846598054856223614234751464677026978663592833021932131890223863958488557751491929790870681634352166306382551053641170653148513905065586371426231708094860319969199188695532125248416114620289163382319209793411273358594075752037420556118716174284285978968869543523463603468900068149176242819535207000347943939513684009629204695145325041863767583594338549819427003722583447738787732904687373697389686768425655696023441805569007306032471347818742334781865032994883722470073322517167763405493903008156744344263867720008667559588039200445195557318999051055455025195569376448939643833990213867505789065804525840317990487864426864930687128797713003319147051032515407446786178675045711594775298965938018090478180715108618828086128653946485579252388215428615579410211075316731894910963464679873257600916358821340704126863196327196356864471613526418091282165488107412289111579557436712064342352662432528489025628204182769414534853168053274242753007501456705760595123829802811744649845728697124768785264221577936459906439991787592093113687500565049236563249516631298169487501509594594033925185667580019090368507456028792811849314146006825760428270636364292483380698121993517251670980014172039818619152700295838701866179001351881359148534187045883401492873093359128919454587711343905765746426652423573711849828593044126959990806412438497384863626511215360062937174895542685385056229484744590492902181236242802766177569998903872539568438285190387771943471885279938588094764545866429228830247736089697022528155022831868620556235394387790458765562231011370714640435953758873072300550639756458122727570912426116973204841392797108208955597427156886243631741759038903888095972682227622966966926425091454604137528889591983064676012462376279821538388387975888924552428929273071964859023475473004288208209985407004399597913513150698880083199960610309785950512094320532571960017978067392648678396305684451529727548958495600101293217084719699500240210040558974827095201801892763045479606766520670428389986455808641058260665493732199987914549738234703052584353653698582008680802745224487647799662389358959768634381967257500881473193750859429159781093832840225762164774320993752871662949411695892159657358475663955184901776470312729934768579101479580018741547572749667108152986592358697326221701822271317763187938556988272638482204074802225141056229098786891389076133441351241867746734605407197701513454370002033157666572751810409750952175475651689205458763864215221917136333826418163839616389106184735187067971268380721602603360085991037799312754380757637183236730867720550874361471360602849051766472595489191569171851364780853735581073114

def mtM2B : Nat :=
  80332019833464000606730933673450576913197636754390915770646117196048408435703270924672506210331105059214400757775622964515444557325317693531404590346832451873603011770212132037814586732947424375964443595382929528460349521305633972320254216209119099234962967915678083099766751871073929169859073496883167623133590677488351976288262326895898982236416752196047351944216635145673446886370158469855028083456985799294368533651837282789936413698171554379342731711390452468518406094153803642684410244174598181474258118086803605161504386032327079512656456529604285836329873244638306470976963337724988854804781102105192063933756523388983553287225468580937366153880723928623087813643458418574899904062398986539471574321164099292773323028451604313809835675928746572660200345063884426873783243113419634991260049379712187187758239215087387973949389128239594564484364609872473764787988818464027208176505468879881537668780588800039561069424735276506953429173728004763848277191267779098633727566273907980999510811200410256819886958762479635526696272851273473617912605150072687145552050399957200578382788432463379357724381588458571915476619659899036377664332537713848114261288629583551318772171184476817938349057019384820168625997330724931526162927282147808417995363846164053865818271755847695576375261069692182551190913180871248370479639298468127484303234769945674235175542271976957518905208225599422222314212833724116974866930432442998503368574426585775254556137227165225042956922134572146359658534850858068523506359713893762449660334180888364664789046736581179638857526005073602291561735172566867455909321251782333857972134093659275746496041392034502304275584323333821106753580047926555237769141283750005257076151754310760755233458206341305502154298951651861255957960598381868875870914994354946833684806266727695496607941245945673100785412285508634275483558849839280606176096227569398442954246607712900062883801211866707347912885948316337585163496156940965643669233445035272069271563043993410522997113058385027223659188580442293097914254301333928107465079258060600196799420510930313173233921775859817182703022368916284761819841408790901080091049621197579350317576013607583346773873725427960841302998840962564820660341315107852942073896397668822898954530249230761807729573861001312072910110399685036691159503004441253279471911280408507713009083129233265771056610389642895317505303318653587730944261765786365194382509874989362387823164726787300620384734673182068278231603153666920272110937315941634040097925685568902976508327984738778172908223000505365680279051343251717984870795022093663950887600462263472430334826884038376514242133477086658854529434223810459517604066207023696202393037633175058510263562734283587795960245707907737373435928876072751507529403027642177015004832012718830606770865176402488368740413670822923055110947444314832223244064916484143507771934167708516667165693516766946267066381139191991440322733421879487547197466434889447083829775820726880832056912106542778477957784579905859024714265233399991037517211946156703436247552216208379385660208884568484178494657187622553324245220511084540169952003900828230049773056263519430172200048947802812909348801296272774413414925503707566016388770036552115990738814327339083649563903198930224634281486329542022908821567853566266643111809201050823310559241799210467753873972902354602698411570721025935814722986066879961042301639879087410981558183242736722810982660470240673921016616794683872171216052599444403538914412010988494222830122966269244630112339478045542468511622923693533449285893138993424736403714269083642284826298974213393327560660102574471284563846275328834774276747216263503619695624699584961207452340335662108529435513710957795348465765281884135063149629554707123592224344395450867847647978910569402950447791498930580240096870637729055562190499626754704044992276631885709351970149439670872319671113185516018968532261959648033284440871164535545835623462103197429734905839821455088787753819699798721608355046945244760680066396472630196273850592585320654382505419393441291459455925517645135721764804184352391958365720219324301862828652496107131097753861811620885927703291325707681104434045081049432738725322574638764539538178975587971044804619614045471612198501950403016153299096051014731685360807539677457320838114407303053634397204772587004121857068283391491523988404103380016218210929938824957935011703081411071371794144856547458468895585954563953650191368975314537775506070834884166883264979413050268144552002241950859329073894648869966561602669812775156853915411899782889256517851455369356744645251398405409049746057522651942128790842858843233837841679489807970991398359930612529068472999274186758068244980567866948813635559854919534511384126553220236190485380710292686570433487417900676089583172559530040560158062615112230916226558294409701168921834521945301748430213463290267798764864137797978192833203372160498367133638977288431830866791115169848201849857473652196514928668395314240930825211475801397885553497102773464114637907188089723450090155459011850893967772929148887197040457043003261203227032852707375079262335067498959330205874301241236079502484395655856589357756373326004510718565217571942919545099593217146734925516067262078033873224731508100309040861906008924722427830245890015284671741797913550568570023602133060813750701624245731847739529457832742853501576147521207407841400017698799870450855595209027791073136739585856247239044351182486685580167892260815513297922086898741868611688188757437829611565055578377805664218028001521269408574687659840831496324604685261921978230871917105864836390831784756218692131746748274761917160678907610685951042122139820859357815321175585486353926677647336776889364785894005657276044816894310231495844750313290024550491191220096575496773568302700810807882171781168465722419819702180885705618162515230302302009348549499160078591471395014287298365120385206102942633747381682333303446458772574316570224764835478337442186725203826202397432084601307253507197610783738243831794724906763200316999300408721114

def mtM2C : Nat :=
  80332019833464000606730933673450576913197636754390915770646117196048408435703270924672506210331105059214400757775622964515444557325317693531404590346832451873603011770212132037814586732947424375964443595382929528460349521305633972320254216209119099234962967915678083099766751871073929169859073496883167623133590677488351976288262326895898982236416752196047351944216635145673446886370158469855028083456985799294368533651837282789936413698171554379342731711390452468518406094153803642684410244174598181474258118086803605161504386032327079512656456529604285836329873244638306470976963337724988854804781102105192063933756523388983553287225468580937366153880723928623087813643458418574899904062398986539471574321164099292773323028451604313809835675928746572660200345063884426873783243113419634991260049379712187187758239215087387973949389128239594564484364609872473764787988818464027208176505468879881537668780588800039561069424735276506953429173728004763848277191267779098633727566273907980999510811200410256819886958762479635526696272851273473617912605150072687145552050399957200578382788432463379357724381588458571915476619659899036377664332537713848114261288629583551318772171184476817938349057019384820168625997330724931526162927282147808417995363846164053865818271755847695576375261069692182551190913180871248370479639298468127484303234769945674235175542271976957518905208225599422222314212833724116974866930432442998503368574426585775254556137227165225042956922134572146359658534848992594311630386216734338472411031225981398707470051169081464035844237450553523351999660145670788082399581305531196452475373557260558160166568772916274554275291650352330162019164661923575543274395119589746505828732069116890562329317648792054720777603179888510197477022278192814633910553320922057066245940316763739448112447736346218430858889967354539121455216830693057315128179505671425186824533830958374358202531238629201255628659005174128846217720266727882475784779776602653882120920179118579236258828590495046219867122085968569122407092555486076654856115325247521914792958002887440569730627005758135588821790220555569390933285041742980366855290952712941095963835422709066765953865669399552827206983615327779371009285415066942569585530837608522004217617637948262796382121659028538598124935775015515254996320088714718369312696804440518190787096504085619816039263491898800608216941964313848571345032408631691407867585388939115273758409115925135922356254058697734833264030172083496185803967963472045626571817785485147022695902705667192640570618231930084445732673036686962840428803056379309452256739592148659473608274080577093225656920796286205646873856227259261854023563909045681598267317397728597605932245512896812740012276403035746018630802734940090440452343932537783953240688030203005203320885617774842066787618336196554427473403577558649576227580614999734934285643910412207935191685561615088833957510235259086138072833341781930358415861437761361683992650692348589422211263606326794975842166313157985463730466638843249906474260936189118979832788699835286113445113580522100262644569538386952115268705855868800162299443987988026729127176438223367428793614391462520417757918165450041701284269774297222646860215454154698573083276293640526809083940329832086446399498559465000233124584073490794418842126414882344629348354586689017254423191855656220480015523937176141239453598694628488863131382553886706212656029400409271339705319137076419906260943541102622733041708106855858887016365337772404959012076863258207552014766817260506290084041415742889338588250026803472796983695267098488152713611193135886356210671299563919356104561002806593696909892143740641805649524762123598910212863237189829661950103667783682403808306117356964963464801153476780247415485040447472181469893932370829028770852653316273131442339966868679707819606917345627093807937848113363638264292737143902843984577702933435851564061908955464529462347281220337158570016509831640772183280145160528574507510725991460549615342591665996128538497740240776368133618079476821624136252986675414804160390968529782717546711410739159117558902031260489582325759340358995878434928008128092831816458012139599484399710590243738596563882898358925304598758092561198649194912812774855925909732173864055820464706814901251430662475656466766011539375342034262843840218555447507697964000244122540879381888287202129787269292777570189479403451134755536493542771989057703576719589706943499275497832996270852743503718956591253346054690962842683843862540295139069584868451372069468468921863136619751298281631792993363584465552344388577867545942176699917247053946949395385469154586161742925089044694783516705858316767288647218339318347072379434585154769873190959703872650699396863916325459557963171224722004829802639921666954163674292610709155112202043706658014106631405552712125396552167998160910969836111225060558826844724089321003967997869473107485910850592471744619638545105446748805033612177282791144832368029725852530447443848594677050449500781584689852312400932633493352677178109026246842695397311049863006804825762083195905055432501961075836484786324666103449980707990439975961024311386692737596686041697916013526118641840092533486847576309386874740979086524758113585021985419011689572186629694530460460091286473831681220371548484796911660080381357169005934924727759001041425457425272282989792445471495718393532326247205441010448354076772512010218546468445096711157405470900063941788895802871904920696938105232156921365957582467214642720075735195274783490418897105649992007928493472055340483759838148568268460710031283201669022704355564264775066018974839937932148700901290775190927781018062914102450527282114202082743036959471079980555946879657114742070866135596878198365227928417261491341426735738553740199239966548453265370508875183023943115485032461767751710526277587829285438079481945153246621814498626081627683142772474238038562124088413972783121357057864671970638262129388493840571497890434489618283241041520659101986079771644118844272065822068896888642854100466468351045416522399450

def mtMix2 : Nat :=
  62632368871981897401725838814879903227526754483505567333669981851090800062459725205343431597256677946024352104667448097752265794732738897838206151356438342901573729484179544183770871558105174787975576633009523215919069605456848595107657519336678885015945035192185535868648638958277212743895937462897468740386181560691503949659580305448861019151170106043121106933431613564411170345564474844144526017556767388478939872175338278808832954778316123727977144284587501306980404892099470187242920408652478568291966260744029506987063475418522108658677603684728416327776096893831282566829224320689371656528485200314366980554569534917737232959098813058804795344470825938683380838473567130489279251653639111514044812513052064324043890512219179857371832824803336571647528627108881925340664583540883929077276296471516973083688081436937382533491906499840220374566583809702659756837458232455967335889671283439623566101598789335482922285234772361836500317480955200610110626971473369946393437472031732090396958459958071818843083914826765105084737324714057469402840545148650965580671902525782615414098519711394166524582439120421013278875318386227958497929957376711537249751081019660483716965320627640422636755791078908666358113939424783649042866190616661544793815711350138374681198753101001896367478353963127388890567255886310854870161145895671452835123378860351584255019956344175924047144572086344728463002021714911088753306735897034862111635566623789317369498993200770339139177564190577472647247198534849844528961486333432553137322480056033643243383446880457845062617366015591511846885167639860227764563043866126479808504180816520028478194426666120823586613375630619790865694216681763652646042165632975162716955377595988083737139069381886801698489936104036358125280472366342289645624912795566364945371511040872291806251404604011015707358693326278715053274232342531725934305456275525609408459326647483678785018052058565034191773293449776198118771578781946268222906057519923448124031490120299382110340157197055602425513226168622296207255105250335075593467716289914098261488239408006059220961851597596495397894294026431708041876821749099943068665595142193816826769553244080153732895422099200701704136678441714158311423396097265879141515079484329706436587150723941727259939418644731469001977842710244387295741374623661910217310419731856534683105728597779760058085436221950887266117188087806814386059797470576325315598682145072145788873119218975880627580203394220066700909343485912971469686748161681874973752441813771830717022884129530528258479616249641762594132240928019129368640910519813206849475871028957665749898958605428767578155118396872542290515128562146072299929505515392839924204008400289047435799460360360141566269591639916438114992042249233476696371836924206356885864291657292039816577722443926650267638576585805250981226077424139435147044073500201196448337297080865218899154929247015365538630014549592968533547178143937214644722990820447557730294736517135135681306584323470580859504229454791487436983221158923262509484095279789931736634531130818617443356294986791861093768288361614827786451048562572846947226968740603144095470640476722077265875189705693994966330615605038522782177224596846603721266551359930607751103592314764282202863354574177363224107847950884524883718296499520198803881742473948867501560963368006263305273897466261028948231559529880347690123577722593966301578589278306246751725085923060514771907981322467006636568858452935644064060363254482784303899153315079316178778189367875083706187802703089288666450884953683177047800876469039946887761610017027264790690178672231288735190661591115668287438494128974398782640783307861139540203445352607598233359716599715199741889800430186925992116237827008001143398242755919797205213976272059683205135714606927587082719464164143173618370736097578744516654979987016856532512982909950511334195871190275185110138489652260660669750680005880434124700320398594710246691054989123013729386639777079600592017661451713203322969472570376166677268002375953315969623349267292729100623125359165570612401662541650153095563915755811413148809335460056895488668973244061290042140870171148779877708079526563735865695471344157399284281326181617877474974327718264718083447329540069777953799145378562082302767987451080314101115897299964165273028147358795733777618181320520148174425357122726217771294407137217711540040016056839995740966957995213016752708579875878608834071086793091766858135587589807026934078340337689853487935980530619812314752209548231398364719703010515334973013166876658976565807380377390036748958202473313063137496708350974752037135040925738491766011864322310801508164941488235394793343974576526003874473478042581945534562814752915012813186364167365079311089917631105592679353961856534048607806253929000093020092160376474925991028752332723958677214674947941889953107471939844403474064942684414752952178864647941581080739450037253754953859763402842550528092734654881142349024735693877699964495343357470985903871202907123390554403102907140762711673109082802093536484441569351652395444910507203740876215033767100534180245799938679099211662963476077547839423607111924854309032126884646830290603499784031175320944460630881483033559132246393660078509128642431994148612541085159076639725959237592603158101113158821023630647379193662898870732760895622152550406046559816961551810799927088091883631855906082373864863330720729405265363012090925952666052250184904062995511510251255186179079241107238007418208601794186461344022808485205594982804843637287916820762751729772610977406165449151878777115296942543556302460455468273660722864916387923274378564875085379421311145436519155097721888890568997743642785772216843873622331845734307292315294957431084431536338867785180108606733419750027876974828099025160523142208471505985894388205113200489247670392884671354647744545184343405491303795865248249718732463589665038829000846312082992301155624474275054213992931005129334668436047509996601340955667103546308596705218718522633575127920988057858052845517167197524652584820858564794122633

def mtSeed : Nat :=
  62632368871981897401725838814879903227526754483505567333669981851090800062459725205343431597256677946024352104667448097752265794732738897838206151356438342901573729484179544183770871558105174787975576633009523215919069605456848595107657519336678885015945035192185535868648638958277212743895937462897468740386181560691503949659580305448861019151170106043121106933431613564411170345564474844144526017556767388478939872175338278808832954778316123727977144284587501306980404892099470187242920408652478568291966260744029506987063475418522108658677603684728416327776096893831282566829224320689371656528485200314366980554569534917737232959098813058804795344470825938683380838473567130489279251653639111514044812513052064324043890512219179857371832824803336571647528627108881925340664583540883929077276296471516973083688081436937382533491906499840220374566583809702659756837458232455967335889671283439623566101598789335482922285234772361836500317480955200610110626971473369946393437472031732090396958459958071818843083914826765105084737324714057469402840545148650965580671902525782615414098519711394166524582439120421013278875318386227958497929957376711537249751081019660483716965320627640422636755791078908666358113939424783649042866190616661544793815711350138374681198753101001896367478353963127388890567255886310854870161145895671452835123378860351584255019956344175924047144572086344728463002021714911088753306735897034862111635566623789317369498993200770339139177564190577472647247198534849844528961486333432553137322480056033643243383446880457845062617366015591511846885167639860227764563043866126479808504180816520028478194426666120823586613375630619790865694216681763652646042165632975162716955377595988083737139069381886801698489936104036358125280472366342289645624912795566364945371511040872291806251404604011015707358693326278715053274232342531725934305456275525609408459326647483678785018052058565034191773293449776198118771578781946268222906057519923448124031490120299382110340157197055602425513226168622296207255105250335075593467716289914098261488239408006059220961851597596495397894294026431708041876821749099943068665595142193816826769553244080153732895422099200701704136678441714158311423396097265879141515079484329706436587150723941727259939418644731469001977842710244387295741374623661910217310419731856534683105728597779760058085436221950887266117188087806814386059797470576325315598682145072145788873119218975880627580203394220066700909343485912971469686748161681874973752441813771830717022884129530528258479616249641762594132240928019129368640910519813206849475871028957665749898958605428767578155118396872542290515128562146072299929505515392839924204008400289047435799460360360141566269591639916438114992042249233476696371836924206356885864291657292039816577722443926650267638576585805250981226077424139435147044073500201196448337297080865218899154929247015365538630014549592968533547178143937214644722990820447557730294736517135135681306584323470580859504229454791487436983221158923262509484095279789931736634531130818617443356294986791861093768288361614827786451048562572846947226968740603144095470640476722077265875189705693994966330615605038522782177224596846603721266551359930607751103592314764282202863354574177363224107847950884524883718296499520198803881742473948867501560963368006263305273897466261028948231559529880347690123577722593966301578589278306246751725085923060514771907981322467006636568858452935644064060363254482784303899153315079316178778189367875083706187802703089288666450884953683177047800876469039946887761610017027264790690178672231288735190661591115668287438494128974398782640783307861139540203445352607598233359716599715199741889800430186925992116237827008001143398242755919797205213976272059683205135714606927587082719464164143173618370736097578744516654979987016856532512982909950511334195871190275185110138489652260660669750680005880434124700320398594710246691054989123013729386639777079600592017661451713203322969472570376166677268002375953315969623349267292729100623125359165570612401662541650153095563915755811413148809335460056895488668973244061290042140870171148779877708079526563735865695471344157399284281326181617877474974327718264718083447329540069777953799145378562082302767987451080314101115897299964165273028147358795733777618181320520148174425357122726217771294407137217711540040016056839995740966957995213016752708579875878608834071086793091766858135587589807026934078340337689853487935980530619812314752209548231398364719703010515334973013166876658976565807380377390036748958202473313063137496708350974752037135040925738491766011864322310801508164941488235394793343974576526003874473478042581945534562814752915012813186364167365079311089917631105592679353961856534048607806253929000093020092160376474925991028752332723958677214674947941889953107471939844403474064942684414752952178864647941581080739450037253754953859763402842550528092734654881142349024735693877699964495343357470985903871202907123390554403102907140762711673109082802093536484441569351652395444910507203740876215033767100534180245799938679099211662963476077547839423607111924854309032126884646830290603499784031175320944460630881483033559132246393660078509128642431994148612541085159076639725959237592603158101113158821023630647379193662898870732760895622152550406046559816961551810799927088091883631855906082373864863330720729405265363012090925952666052250184904062995511510251255186179079241107238007418208601794186461344022808485205594982804843637287916820762751729772610977406165449151878777115296942543556302460455468273660722864916387923274378564875085379421311145436519155097721888890568997743642785772216843873622331845734307292315294957431084431536338867785180108606733419750027876974828099025160523142208471505985894388205113200489247670392884671354647744545184343405491303795865248249718732463589665038829000846312082992301155624474275054213992931005129334668436047509996601340955667103546308596705218718522633575127920988057858052845517167197524652584820858564038885376

def mtTWA : Nat :=
  62632368871981897401725838814879903227526754483505567333669981851090800062459725205343431597256677946024352104667448097752265794732738897838206151356438342901573729484179544183770871558105174787975576633009523215919069605456848595107657519336678885015945035192185535868648638958277212743895937462897468740386181560691503949659580305448861019151170106043121106933431613564411170345564474844144526017556767388478939872175338278808832954778316123727977144284587501306980404892099470187242920408652478568291966260744029506987063475418522108658677603684728416327776096893831282566829224320689371656528485200314366980554569534917737232959098813058804795344470825938683380838473567130489279251653639111514044812513052064324043890512219179857371832824803336571647528627108881925340664583540883929077276296471516973083688081436937382533491906499840220374566583809702659756837458232455967335889671283439623566101598789335482922285234772361836500317480955200610110626971473369946393437472031732090396958459958071818843083914826765105084737324714057469402840545148650965580671902525782615414098519711394166524582439120421013278875318386227958497929957376711537249751081019660483716965320627640422636755791078908666358113939424783649042866190616661544793815711350138374681198753101001896367478353963127388890567255886310854870161145895671452835123378860351584255019956344175924047144572086344728463002021714911088753306735897034862111635566623789317369498993200770339139177564190577472647247198534849844528961486333432553137322480056033643243383446880457845062617366015591511846885167639860227764563043866126479808504180816520028478194426666120823586613375630619790865694216681763652646042165632975162716955377595988083737139069381886801698489936104036358125280472366342289645624912795566364945371511040872291806251404604011015707358693326278715053274232342531725934305456275525609408459326647483678785018052058565034191773293449776198118771578781946268222906057519923448124031490120299382110340157197055602425513226168622296207255105250335075593467716289914098261488239408006059220961851597596495397894294026431708041876821749099943068665595142193816826769553244080153732895422099200701704136678441714158311423396097265879141515079484329706436587150723941727259939418644731469001977842710244387295741374623661910217310419731856534683105728597779760058085436221950887266117188087806814386059797470576325315598682145072145788873119218975880627580203394220066700909343485912971469686748161681874973752441813771830717022884129530528258479616249641762594132240928019129368640910519813206849475871028957665749898958605428767578155118396872542290515128562146072299929505515392839924204008400289047435799460360360141566269591639916438114992042249233476696371836924206356885864291657292039816577722443926650267638576585805250981226077424139435147044073500201196448337297080865218899154929247015365538630014549592968533547178143937214644722990820447557730294736517135135681306584323470580859504229454791487436983221158923262509484095279789931736634531130818617443356294986791861093768288361614827786451048562572846947226968740603144095470640476722077265875189705693994966330615605038522782177224596846603721266551359930607751103592314764282202863354574177363224107847950884524883718296499520198803881742473948867501560963368006263305273897466261028948231559529880347690123577722593966301578589278306246751725085923060514771907981322467006636568858452935644064060363254482784303899153315079316178778189367875083706187802703089288666450884953683177047800876469039946887761610017027264790690178672231288735190661591115668287438494128974398782640783307861139540203445352607598233359716599715199741889800430186925992116237827008001143398242755919797205213976272059683205135714606927587082719464164143173618370736097578744516654979987016856532512982909950511334195871190275185110138489652260660669750680005880434124700320398594710246691054989123013729386639777079600592017661451713203322969472570376166677268002375953315969623349267292729100623125359165570612401662541650153095563915755811413148809335460056895488668973244061290042140870171148779877708079526563735865695471344157399284281326181617877474974327718264718083447329540069777953799145378562082302767987451080314101115897299964165273028147358795733777618181320520148174425357122726217771294407137217711540040016056839995740966957995213016752708579875878608834071086793091766858135587589807026934078340337689853487935980530619812314752209548231398364719703010515334973013166876862683718996356602656158837233508595127429945550669904278183026255015720514453709326249068087462171017660011876217317090850569628607629653182490027608683339108329650196107035789786091727902082680107855786414464528129882867283451409010333011892685540193485623861686027687969887712567965271036838365091861617536727124907492880027722972906829465275620108930770263383058679472898526055610414035124328338745565112576551258317942845394564697071064768972727596546420360019093231304421982433277456344626265032686860885045878694657348647304221235103866746469198891622998700175870107954423311677435527545660917552014201507228888309769721670123817084063785508630506202014371229381504946237645356562319566324785446231101717720573269159874407493394521189864209035004755588809908939264390339954892511920295920788215872973123746527759795964399083022692330511462101546097102415189563200812648608869658776789632642057731469853803683869865559313792822159992231766321320218513434882089733263497166128945458133436028405679649698916896311861164832056689451143286505095971385514927410642721005286052472031134281225892896150052538279022016516310437361095794788791971377559400789250259407543248944812985390654585792103365988212784198322522164569420365566750950565205152926672874302864266725019846457303532382221296453350483947429710038107055649829046048771161836758238353805238600159876467673571016627520184431844814118567727068406947992141601309291117375271141351703582638616342063057434826091766773321754637791038371512732239

def mtTWB : Nat :=
  62632368871981897401725838814879903227526754483505567333669981851090800062459725205343431597256677946024352104667448097752265794732738897838206151356438342901573729484179544183770871558105174787975576633009523215919069605456848595107657519336678885015945035192185535868648638958277212743895937462897468740386181560691503949659580305448861019151170106043121106933431613564411170345564474844144526017556767388478939872175338278808832954778316123727977144284587501306980404892099470187242920408652478568291966260744029506987063475418522108658677603684728416327776096893831282566829224320689371656528485200314366980554569534917737232959098813058804795344470825938683380838473567130489279251653639111514044812513052064324043890512219179857371832824803336571647528627108881925340664583540883929077276296471516973083688081436937382533491906499840220374566583809702659756837458232455967335889671283439623566101598789335482922285234772361836500317480955200610110626971473369946393437472031732090396958459958071818843083914826765105084737324714057469402840545148650965580671902525782615414098519711394166524582439120421013278875318386227958497929957376711537249751081019660483716965320627640422636755791078908666358113939424783649042866190616661544793815711350138374681198753101001896367478353963127388890567255886310854870161145895671452835123378860351584255019956344175924047144572086344728463002021714911088753306735897034862111635566623789317369498993200770339139177564190577472647247198534849844528961486333432553137322480056033643243383446880457845062617366015591511846885167639860227764563043866126479808504180816520028478194426666120823586613375630619790865694216681763652646042165632975162716955377595988083737139069381886801698489936104036358125280472366342289645624912795566364945371511040872291806251404604011015707358693326278715053274232342531725934305456275525609408459326647483678785018052058565034191773293449776198118771578781946268222906057519923448124031490120299382110340157197055602425513226168622296207255105250335075593467716289914098261488239408006059220961851597596495397894294026431708041876821749099943068665595142193816826769553244080153732895422099200701704136678441714158311423396097265879141515079484329706436587150723941727259939418644731469001977842710244387295741374623661910217310419731856534683105728597779760058085436221950887266117188087806814386059797470576325315598682145072145788873119218975880627580203394220066700909343485912971469686748161681874973752441813771830717022884129530528258479616249641762594132240928019129368640910519813206849475871028957665749898958605428767578155118396872542290515128562146072299929505515392839924204008400289047435799460360360141566269591639916438114992042249233476696371836924206356885864291657292039816577722443926650267638576585805250981226077424139435147044073500201196448337297080865218899154929247015365538630014549592968533547178143937214644722990820447557730294736517135135681306584323470580859504229454791487436983221158923262509677880681217533195125657827939872950233206215356251709082073891155035999222050462458054101749133173499339296514878277143953164902294011796113057395596344998396590813814337502170546962151083261013053947170659917167777917723172537292543817535045773277762959586780505963600772673731169305487020255560638052018003977107952704693640532137580875304516113091036061552670784007769816408928566916946731326883596379918028791478679655653638049419283639126898336439026345294310081754636631845653345398814707135950078585069437771631158929869340413093173238472518453678577662139211899098834575230014094251783404307964936935223658910181716302347341020418755158024123328388548111467142866158518363565146055640398608182511693687748400320593774735910783845479543103303001958280170707364022328697165349199916010133411425569234943562052053150397876672673324705608283520614667518750581286515478917261756071162344106277302289941907833667293866670431000822905291226341266710347588860969099394709820541248243915315182439214355450137523139149829886077077781143217855199126094200939580563021648505158790036538680303364516329648574768513392960138903320360741680746933555645031479054510259070986792808521529647268472719722469552861055668535341431575238022518806533864760713970841630525618891384689114591499494804058101729952250996768855991443808464334021561905102147584700300630099637019659896124155598611280243778054839960702141446580570400941323803794939974612236944887507545923751968757168563360918531437271703447036544426898310388964408057121972701480775279908665857886792445394456478773214316690760853347257580775656830127241093119256238542747106780295030373440554151403263677232989840110892356578991642805978651003349563791100383545525961126575901133953034458460991009825738355746054875351274672681846343616472641099480690461329604051869585815374985674884353646811756494870386950285724761892540604076742158287549544494626416910112956422321898359827778494941944256825884800349571932217368040148755624074299388097282610207350864051467040159310361187274674754680513714624655496170204031877201667546691415149813242366941535733342111566776795017175056725506490945942905337434653238322323627278144253570719217173928279606531408705418208940501211176273770641063465525010376148954425604053514935524670254180894458341269091513967818687440121678429919417274053343572963496311869343760075863811738298159109585918572548668592034424601335630650611846743370593139191205350827841378964255189738939284341392661373473892823860081082831050063983061958141155831882506111299317863399439940832954543301556042480808575220957382899744412934104523203368071855565436768946026616149286737467556547207947131803694989168897074099272572489439924499237898842293901525575536000484129312559953079096603544684235424154095786412659774299793216870136121729641187496122637788384776955978751042096797713810048081071118611499745241608435126755115783289146937488401264625451937529621548100683202060378475944427359331769505584305245248500006650430089580840523548871247

def mtTWC : Nat :=
  62632368871981897401725838814879903227526754483505567333669981851090800062459725205343431597256677946024352104667448097752265794732738897838206151356438342901573729484179544183770871558105174787975576633009523215919069605456848595107657519336678885015945035192185535868648638958277212743895937462897468740386181560691503949659580305448861019151170106043121106933431613564411170345564474844144526017556767388478939872175338278808832954778316123727977144284587501306980404892099470187242920408652478568291966260744029506987063475418522108658677603684728416327776096893831282566829224320689371656528485200314366980554569534917737232959098813058804795344470825938683380838473567130489279251653639111514044812513052064324043890512219179857371832824803336571647528627108881925340664583540883929077276296471516973083688081436937382533491906499840220374566583809702659756837458232455967335889671283439623566101598789335482922285234772361836500317480955200610110626971473369946393437472031732090396958459958071818843083914826765105084737324714057469402840545148650965580671902525782615414098519711394166524582439120421013278875318386227958497929957376711537249751081019660483716965320627640422636755791078908666358113939424783649042866190616661544793815711350138374681198753101001896367478353963127388890567255886310854870161145895671452835123378860351584255019956344175924047144572086344728463002021714911088753306735897034862111635566623789317369498993200770339139177564190577472647247198534849844528961486333464633938171512754079975178216405610174167951953936475433482911441761276313453705630244679928511060954467293202271911656904608615590601845415858041158603301312550268822933722073374204458169779595888073337036923674023928830643221399037939844781181186651011348152864881668431787624039799499949671672206109815155162659518046707079555900203166274921820744067111292290893710277891146725364646401250557490456000292019224147362778618452612622500825970188518081178016618579014360364363563595528715796436194789121064177090804997784042597359691896801399903098057178185501378469586861265814631741674446072982905681216854352497666377453085295174748890705601365424790213917717549087132651414470567471334363367699855382310833480352265966016372301516645551814493475363375257618762048413545512078867129010809893770485393388704641519810561445735806471615976333801725933503227610341313622962037999658670432764646899068246480470304187276755845452616232162834414451632395470766194781228887264653358130760044646719904151021153079561525636578061589629037301682640708737815524264422964714741758866748775363295951509613919675274149901325811572934635521597146723214999965487894162375736605410512400643673920299616409133559594970740159485641487317205984351442206902149556935345145674942220838512295905504791654592779547752224630650535831630942918548272735259238025968681156750127305111109279563778753381262051310655109382504067717815050636199518666811293265122812695247589202370955546670676278035635275677369230159076926397435281089655016372484707510074065982834586446886167081285197854255710169487099286037583760576491397386900570462588811994288481838845272294474915963632868562544367761878884372675802081669735365259416132220019699649761100904898051824569539198752854210746479495629973049501629414477034181101162243088054486024530513951990736319318908757690108232765210665644376919520081422655783325534783859383825345602850125779584575867676750662604875045402547744951427436479889683383463480976954854076009030251587890157084121855643307026980056432494606530803291882631537439161997435229329462541162853535800651949752441720615761245843388253186016872126816744006739537396718985912427751087664303848770290321141323755949680346827035566000842816470257907589973063115464765942921655508287955873140860120828944311714452235575438755184034849303920701380761498460409072415687840808517452403903066702919746518333900431920606424761091049551314508422128441151715454419580149503100232134189175600017139682748877855192529648029394079859907114785846364794248845039338040614984613223073001419715369878751710865510596274278149342973015354350844181928488369101030107793320783547923701106712897464987471037820650275477999009064701501518250627025469101356749609116678599235250707350974177600976430956865846947853311599025688584787441734664659137230954123538362013788974139443791332432231114333801100263165299971341133121480012142258944750419636397226569622974636865869118821429067238245693146937982654518251976497274311384008877739251286604740081247934111311757489320606953932453313815629196080435561005522143978075862527234964170940930914127935194223155516959930438755988483289265354618454540124381545772440703884282332685704049393650033169824817200439207624710803469767159516625449158893666320134232383351545948121448530067857872117455890011801286265098736934729543446934411622052294108390924532678425358326023652512985303118136533189251696930409174889543426940194372219234340961206533857339990993261375542460863509934342766680825342246979055646089611840595376143066246574977528787879252611572617243180843870464679938889338862933149679193673732852812654870346598596356290784600632164131093527247092023270428705536603666593525797769939733636311865425916392606668482529752015463902674142750201257472293515680616284749857193689117542955434511199905169505087492962275550239416054954533352581859059473501612427297885044481842756880906329579903604501440793411991756622901796322322230987821628568302259318021055703167945604341387232592469665373396024112971311948208433067845229948116270252036948190014448368808142882541253009342228947570317236835751917534834526108057477085956226619390824783033035273635326111015641439674560063404650813304823815999521550800027131258621257507958533324845728189037996329961551258733371503326345398857428495020717385119026999534465843601405079658641441881190005985229426984327952579882923059865247949273772651267890221326908620404127596038873320000099064968657213420598372616729934476386432830799212999787703498527824693839

def mtTW : Nat :=
  9036269874494276670769927383411549104871467116297409219777025605315413061266737505118699085132031780817294288255583940853510926743036073282562228428179569176973893070492319552091296999397208074979516628186641997515846250818193679023741179195043627561893431464669186405055372785123318726055022186499762190107163893530930270560935864357542112072246187808116831954530677423385448757020533484372045736475984194732258966926540469642203865686287301778656921861861352671700033736684800439255220043371968320330559167540026428555632715196582034439490844785402972487532305340454338331217849289687789171813937600108356846251762470138825996237875328898662362142674465975730341023872767764183576163822418141210325310331118010684362857589179125775092562766210309302190108498777643095879798328855329344141822048629995006048087121720482612911739268921465185704908078381754670496773852300330794940318034535397859352043640519363992509660722229052880443243713852548377133995392103239376517455323356688472647785303249747607411786983908778006617082376317444127018186387003658360967860576442859490672094834694722391293117258096248249061235378602564963496869048075881410638118700912180666797286402607200828475232998374046687797567474047114330489686673784007902850231735123639446492582028253782610263906387074756092291650208407783655316134273149529212819100874347897892462653540143660610583326330251618897262643314749739099007341726411637478499653727978351811722579599995503844073280542522254927218476245087999909268752812217233478082088749065195617358656133882968400391931051947121729160396149238696663534668809043112165491513348602586813352636400090243186554193378916959932124160253363383746665543787419323442119945255128035848271867608110486649224008863702560014333228583993717043058441323247415449187910072708648632381718979124498761220684681525017577187062412311117590710483340153341465034453391655160428586500733979079930070751550678274533768600135821804959919777120736377907458090692163848262674091789361265232893442377631810748671291470126594660546858045367000288936391180936398743816803869849627231526777441146782629361307066803022972072943528489268080445271334905547435057969855466592106541483425824187564209407422649041025902799380969744988670161037196787793368665280394760425379653212950876941271986019562173980877809061783955015611269688661579646343362231474299412700034690146781485486657651871420381726505249987520055581853458817784763725784766656116565322055262104964493222028766086750268558141546434144700456273232425271850435166932098703461008425760101868629420292459636926664323671940770878915957590359806114010049793237013892660960744548290717673226746317186703422888292580645540555653342521154069475069809884784940131748175164363406896204713576186054546296081192709733765402322833477489877535515267262201271997446515092495019721270540898507790405157569804856834998370491912991790003489473366456949300628050697972431364584030845152929318465693895775919061846885767484753478070345480452416722012873334534838895670481634729125880809624473631035060712489812571252715324439039092659958663450599460782271203721406688126507302656222215017273330653888074851222184865514426395691856713597378943118177320841147554841812448275780910639243932481756440001394029405103397665556246641875896930156699023189938056737981029702366861573554031395516129364649373989937060473414480298625519427234511528589869408069498313317277201459022219283075570997907074681101272351251610301054487997202641110273534208235727657898911831998955812348827469934646043325144971592533610962308260152743549235409333318308253985680112733485284528050851562615131928623680066601033851641806441575102289280429298382026001216696065257645854736520253610853614117727445018601516196932643124856865899272387187552180028692522992297067796597857949977604377898513940986627373658908056460378313837937883183558756671013766887588356575552383434131611994893742459994213579411888894213521560825006069446516180979115883497320765694284491862009663857970767734107415591013620861796548431063195761918511852153244728592979724159717593077971627023745919716361716232708198020251103156091028585268444058608599134095803434885523688084886386264047820231318206957734322602941567849391589357284573935596634073290592975997719321768607104066473018756580197273426960731969339561439917375570010903477304623234869894155440207684793827339677431053631053372484681513117127284040254769683933870552574673672152583776444445508063750509679806949591305865226233290375493520498512421852708973429896059139064790960718306996792038067459130297547896395985991316189692780909198053537568037078539569730813102052573399156255363146979030317285009554004587207133614618407127957252409136115358246375225203883050477121186632174986056831728395409232979073371214826380426698806108904979713063238749694417451224739374825976855282631911361554871758243049722259478728688637473952444644202377719693631789341449080173805795432669801326134238573235058455464901052837857927082178297404499585270131999657437015656855718274825835107742348084883797417398291761647498783332770457321494166552714129808003859527680803019310293532989003459095190385103775830335561851764770587149010088924737860633379688214218647711215455164300755889833729595932723207474376367790726186210839676598906751655876705497594764046504810702810487455729626517656795898565933550824663977441389617509705789183591625865604713404007978611557411976989183416024339335821834678424931988261865400467615641594743381413660665706395851520125594379900430050340337730132748710186442940821012880833231439791386224478431284870442571704801535618437323124366011076892397885389853240587513992657125455050405364424833956797884837912409307273328164086308001058553753747378045622858901391606469666629310537207355781168889482452077576211308422796392989793200253957568472870507785215169854254364268385302268259514662149410650982284011554786603918527464897624559830772079125620906471056667410053526902406599118519200346189236740132117488599558302478695875176664275549440591

end PyRandom


/-!
## Theorems

First the staged evaluation of the seed-0 generator state: each loop of the
seeding computation is split into chunks of at most 156 iterations, each
settled by evaluation against the checkpoint values above.
-/

namespace PyRandom

set_option maxRecDepth 8000

theorem iterN_add (f : α → α) : ∀ (a b : Nat) (s : α), iterN f (a + b) s = iterN f b (iterN f a s)
  | 0, b, s => by simp [iterN]
  | a + 1, b, s => by
    rw [show a + 1 + b = (a + b) + 1 by omega]
    show iterN f (a + b) (f s) = iterN f b (iterN f a (f s))
    exact iterN_add f a b (f s)

theorem iterN_split (f : α → α) (a b : Nat) (s t u : α)
    (h1 : iterN f a s = t) (h2 : iterN f b t = u) : iterN f (a + b) s = u := by
  rw [iterN_add, h1, h2]

theorem igChunk1 : iterN igStep 156 (1, wSet 0 0 (mask32 19650218)) = (157, mtIGA) := by decide

theorem igChunk2 : iterN igStep 156 (157, mtIGA) = (313, mtIGB) := by decide

theorem igChunk3 : iterN igStep 156 (313, mtIGB) = (469, mtIGC) := by decide

theorem igChunk4 : iterN igStep 155 (469, mtIGC) = (624, mtIG) := by decide

theorem initGenrand_eval : initGenrand 19650218 = mtIG := by
  show (iterN igStep 623 (1, wSet 0 0 (mask32 19650218))).2 = mtIG
  have h : iterN igStep 623 (1, wSet 0 0 (mask32 19650218)) = (624, mtIG) := by
    rw [show (623 : Nat) = 156 + 156 + 156 + 155 by decide]
    exact iterN_split _ _ _ _ _ _
      (iterN_split _ _ _ _ _ _ (iterN_split _ _ _ _ _ _ igChunk1 igChunk2) igChunk3) igChunk4
  rw [h]

theorem mixChunk1 : iterN (ibaStep1 [0]) 156 (1, 0, mtIG) = (157, 0, mtM1A) := by decide

theorem mixChunk2 : iterN (ibaStep1 [0]) 156 (157, 0, mtM1A) = (313, 0, mtM1B) := by decide

theorem mixChunk3 : iterN (ibaStep1 [0]) 156 (313, 0, mtM1B) = (469, 0, mtM1C) := by decide

theorem mixChunk4 : iterN (ibaStep1 [0]) 156 (469, 0, mtM1C) = (2, 0, mtMix1) := by decide

theorem loop1_eval : iterN (ibaStep1 [0]) 624 (1, 0, mtIG) = (2, 0, mtMix1) := by
  rw [show (624 : Nat) = 156 + 156 + 156 + 156 by decide]
  exact iterN_split _ _ _ _ _ _
    (iterN_split _ _ _ _ _ _ (iterN_split _ _ _ _ _ _ mixChunk1 mixChunk2) mixChunk3) mixChunk4

theorem mix2Chunk1 : iterN ibaStep2 156 (2, mtMix1) = (158, mtM2A) := by decide

theorem mix2Chunk2 : iterN ibaStep2 156 (158, mtM2A) = (314, mtM2B) := by decide

theorem mix2Chunk3 : iterN ibaStep2 156 (314, mtM2B) = (470, mtM2C) := by decide

theorem mix2Chunk4 : iterN ibaStep2 155 (470, mtM2C) = (2, mtMix2) := by decide

theorem loop2_eval : iterN ibaStep2 623 (2, mtMix1) = (2, mtMix2) := by
  rw [show (623 : Nat) = 156 + 156 + 156 + 155 by decide]
  exact iterN_split _ _ _ _ _ _
    (iterN_split _ _ _ _ _ _ (iterN_split _ _ _ _ _ _ mix2Chunk1 mix2Chunk2) mix2Chunk3) mix2Chunk4

theorem initByArray_eval : initByArray [0] = mtSeed := by
  have e0 : initByArray [0]
      = wSet (iterN ibaStep2 623
          ((iterN (ibaStep1 [0]) 624 (1, 0, initGenrand 19650218)).1,
           (iterN (ibaStep1 [0]) 624 (1, 0, initGenrand 19650218)).2.2)).2 0 2147483648 := rfl
  rw [e0, initGenrand_eval, loop1_eval,
    show ((2, 0, mtMix1) : Nat × Nat × Nat).1 = 2 from rfl,
    show ((2, 0, mtMix1) : Nat × Nat × Nat).2.2 = mtMix1 from rfl, loop2_eval]
  decide

theorem twChunk1 : iterN twistStep 156 (0, mtSeed) = (156, mtTWA) := by decide

theorem twChunk2 : iterN twistStep 156 (156, mtTWA) = (312, mtTWB) := by decide

theorem twChunk3 : iterN twistStep 156 (312, mtTWB) = (468, mtTWC) := by decide

theorem twChunk4 : iterN twistStep 156 (468, mtTWC) = (624, mtTW) := by decide

theorem twist_eval : twist mtSeed = mtTW := by
  show (iterN twistStep 624 (0, mtSeed)).2 = mtTW
  have h : iterN twistStep 624 (0, mtSeed) = (624, mtTW) := by
    rw [show (624 : Nat) = 156 + 156 + 156 + 156 by decide]
    exact iterN_split _ _ _ _ _ _
      (iterN_split _ _ _ _ _ _ (iterN_split _ _ _ _ _ _ twChunk1 twChunk2) twChunk3) twChunk4
  rw [h]

theorem h624 : genrandUint32 ⟨mtSeed, (624 : Nat)⟩
    = (temper (wGet (twist mtSeed) 0), ⟨twist mtSeed, 1⟩) := rfl

theorem streamEq : genrandUint32 ⟨mtSeed, (624 : Nat)⟩ = genrandUint32 ⟨mtTW, (0 : Nat)⟩ := by
  rw [h624, twist_eval]
  rfl

theorem gb_unfold (k : Nat) (s : MTState) :
    getrandbits k s = ((genrandUint32 s).1 >>> (32 - k), (genrandUint32 s).2) := rfl

theorem rbl_unfold (n k fuel : Nat) (s : MTState) :
    randbelowLoop n k (fuel + 1) s
      = if (getrandbits k s).1 < n then some (getrandbits k s)
        else randbelowLoop n k fuel (getrandbits k s).2 := rfl

theorem rb_congr (n k fuel : Nat) (s1 s2 : MTState)
    (h : genrandUint32 s1 = genrandUint32 s2) :
    randbelowLoop n k (fuel + 1) s1 = randbelowLoop n k (fuel + 1) s2 := by
  have g : getrandbits k s1 = getrandbits k s2 := by
    rw [gb_unfold, gb_unfold, h]
  rw [rbl_unfold, rbl_unfold, g]

theorem rr_unfold : randrange 10 50 ⟨mtSeed, (624 : Nat)⟩
    = (randbelowLoop 40 6 1000 ⟨mtSeed, (624 : Nat)⟩).map fun rs => (10 + rs.1, rs.2) := rfl

theorem first_draw : randrange 10 50 ⟨mtSeed, (624 : Nat)⟩ = some (34, ⟨mtTW, 2⟩) := by
  have rb1 : randbelowLoop 40 6 1000 ⟨mtSeed, (624 : Nat)⟩
      = randbelowLoop 40 6 1000 ⟨mtTW, (0 : Nat)⟩ := rb_congr 40 6 999 _ _ streamEq
  rw [rr_unfold, rb1]
  decide

theorem dl_succ (lo hi n : Nat) (s : MTState) : drawList lo hi (n + 1) s
    = (randrange lo hi s).bind fun p =>
        (drawList lo hi n p.2).bind fun q => some (p.1 :: q.1, q.2) := rfl

theorem bi_unfold (s : MTState) : buildItems 10 s
    = (drawList 10 50 10 s).bind fun ps =>
        (drawList 1 10 10 ps.2).bind fun ws =>
          some ((ps.1.zip ws.1).map fun pw => (⟨pw.2, pw.1⟩ : Knapsack.Item)) := rfl

theorem genItems_eval : genItems 10 0 = some Knapsack.nbItems := by
  have e1 : genItems 10 0 = buildItems 10 ⟨initByArray [0], 624⟩ := rfl
  rw [e1, initByArray_eval, bi_unfold, dl_succ, first_draw]
  decide

theorem ia_succ (n : Nat) (s : MTState) : genInterleavedAux (n + 1) s
    = (randrange 10 50 s).bind fun p =>
        (randrange 1 10 p.2).bind fun w =>
          (genInterleavedAux n w.2).bind fun rest => some ((⟨w.1, p.1⟩ : Knapsack.Item) :: rest) := rfl

theorem genItemsInterleaved_eval : genItemsInterleaved 10 0 =
    some [⟨7, 34⟩, ⟨5, 12⟩, ⟨8, 42⟩, ⟨5, 35⟩, ⟨6, 40⟩,
      ⟨4, 47⟩, ⟨3, 42⟩, ⟨3, 28⟩, ⟨5, 16⟩, ⟨3, 44⟩] := by
  have e1 : genItemsInterleaved 10 0 = genInterleavedAux 10 ⟨initByArray [0], 624⟩ := rfl
  rw [e1, initByArray_eval, ia_succ, first_draw]
  decide

end PyRandom

/-!
General properties of the exact solver and of the sweep driver.
-/

namespace Knapsack

theorem bestProfit_mono (items : List Item) : ∀ {c1 c2 : Nat}, c1 ≤ c2 →
    bestProfit items c1 ≤ bestProfit items c2 := by
  induction items with
  | nil => intro c1 c2 _; exact le_refl 0
  | cons it items ih =>
    intro c1 c2 h
    simp only [bestProfit]
    by_cases h1 : it.weight ≤ c1
    · rw [if_pos h1, if_pos (le_trans h1 h)]
      exact max_le_max (ih h) (Nat.add_le_add_left (ih (Nat.sub_le_sub_right h _)) _)
    · rw [if_neg h1]
      by_cases h2 : it.weight ≤ c2
      · rw [if_pos h2]
        exact le_max_of_le_left (ih h)
      · rw [if_neg h2]
        exact ih h

theorem solveSel_weight (items : List Item) : ∀ c : Nat,
    total_weight items (solveSel items c) ≤ c := by
  induction items with
  | nil => intro c; exact Nat.zero_le c
  | cons it items ih =>
    intro c
    by_cases h : it.weight ≤ c ∧ bestProfit items c < it.profit + bestProfit items (c - it.weight)
    · simp only [solveSel, if_pos h, total_weight, cond_true]
      have := ih (c - it.weight)
      omega
    · simp only [solveSel, if_neg h, total_weight, cond_false]
      have := ih c
      omega

theorem solveSel_profit (items : List Item) : ∀ c : Nat,
    obj_function items (solveSel items c) = bestProfit items c := by
  induction items with
  | nil => intro c; rfl
  | cons it items ih =>
    intro c
    by_cases h : it.weight ≤ c ∧ bestProfit items c < it.profit + bestProfit items (c - it.weight)
    · simp only [solveSel, if_pos h, obj_function, cond_true, ih, bestProfit, if_pos h.1]
      exact (Nat.max_eq_right (le_of_lt h.2)).symm
    · simp only [solveSel, if_neg h, obj_function, cond_false, ih, Nat.zero_add]
      by_cases h1 : it.weight ≤ c
      · have h2 : it.profit + bestProfit items (c - it.weight) ≤ bestProfit items c := by
          rcases Nat.lt_or_ge (bestProfit items c) (it.profit + bestProfit items (c - it.weight))
            with hlt | hge
          · exact absurd ⟨h1, hlt⟩ h
          · exact hge
        simp only [bestProfit, if_pos h1]
        exact (Nat.max_eq_left h2).symm
      · simp only [bestProfit, if_neg h1]

theorem bestProfit_optimal (items : List Item) : ∀ (bs : List Bool) (c : Nat),
    total_weight items bs ≤ c → obj_function items bs ≤ bestProfit items c := by
  induction items with
  | nil => intro bs c _; exact Nat.zero_le _
  | cons it items ih =>
    intro bs c hw
    cases bs with
    | nil => exact Nat.zero_le _
    | cons b bs =>
      cases b with
      | false =>
        simp only [total_weight, cond_false, Nat.zero_add] at hw
        simp only [obj_function, cond_false, Nat.zero_add]
        have h1 := ih bs c hw
        by_cases h2 : it.weight ≤ c
        · simp only [bestProfit, if_pos h2]
          exact le_max_of_le_left h1
        · simp only [bestProfit, if_neg h2]
          exact h1
      | true =>
        simp only [total_weight, cond_true] at hw
        simp only [obj_function, cond_true]
        have hwc : it.weight ≤ c := le_trans (Nat.le_add_right _ _) hw
        have hw2 : total_weight items bs ≤ c - it.weight := by omega
        have h1 := ih bs (c - it.weight) hw2
        simp only [bestProfit, if_pos hwc]
        exact le_max_of_le_right (Nat.add_le_add_left h1 _)

end Knapsack

namespace Knapsack

theorem ok_bind {ε α β : Type} (x : α) (f : α → Except ε β) :
    (Except.ok x : Except ε α).bind f = f x := rfl

theorem error_bind {ε α β : Type} (e : ε) (f : α → Except ε β) :
    (Except.error e : Except ε α).bind f = Except.error e := rfl

theorem solve_neg (items : List Item) (q : Int) (hq : q < 0) :
    solve items q = .error .invalidInput := by
  simp only [solve, if_pos hq]

theorem solve_ok (items : List Item) (q : Int) (hq : 0 ≤ q) :
    solve items q = .ok ⟨solveSel items q.toNat, bestProfit items q.toNat⟩ := by
  simp only [solve, if_neg (not_lt.mpr hq)]

theorem parametric_analysis_ok (inst : PInstance) (q : Int) (hq : 0 ≤ q) :
    parametric_analysis inst q
      = .ok (bestProfit inst.items q.toNat, set_value inst q) := by
  show (solve (set_value inst q).items (set_value inst q).q).map
      (fun r => (r.objective, set_value inst q)) = _
  rw [show (set_value inst q).items = inst.items from rfl,
      show (set_value inst q).q = q from rfl, solve_ok inst.items q hq]
  rfl

theorem parametric_analysis_neg (inst : PInstance) (q : Int) (hq : q < 0) :
    parametric_analysis inst q = .error .invalidInput := by
  show (solve (set_value inst q).items (set_value inst q).q).map
      (fun r => (r.objective, set_value inst q)) = _
  rw [show (set_value inst q).q = q from rfl, solve_neg _ q hq]
  rfl

theorem sweepValues_cons (inst : PInstance) (q : Int) (qs : List Int) :
    sweepValues inst (q :: qs)
      = (parametric_analysis inst q).bind fun p =>
          (sweepValues p.2 qs).bind fun r => .ok (p.1 :: r.1, r.2) := rfl

theorem pa_items (inst : PInstance) (q : Int) (p : Nat × PInstance)
    (h : parametric_analysis inst q = .ok p) : p.2.items = inst.items := by
  have e : parametric_analysis inst q
      = (solve (set_value inst q).items (set_value inst q).q).map
          (fun r => (r.objective, set_value inst q)) := rfl
  rw [e] at h
  cases hs : solve (set_value inst q).items (set_value inst q).q with
  | error er => rw [hs] at h; exact Except.noConfusion h
  | ok r =>
    rw [hs] at h
    injection h with h1
    rw [← h1]
    rfl

theorem sweepValues_items : ∀ (qs : List Int) (inst : PInstance) (vs : List Nat)
    (inst' : PInstance), sweepValues inst qs = .ok (vs, inst') → inst'.items = inst.items
  | [], inst, vs, inst', h => by
    simp only [sweepValues] at h
    injection h with h1
    cases h1
    rfl
  | q :: qs, inst, vs, inst', h => by
    rw [sweepValues_cons] at h
    cases hpa : parametric_analysis inst q with
    | error e => rw [hpa, error_bind] at h; exact Except.noConfusion h
    | ok p =>
      rw [hpa] at h
      simp only [ok_bind] at h
      cases hsw : sweepValues p.2 qs with
      | error e => rw [hsw, error_bind] at h; exact Except.noConfusion h
      | ok r =>
        rw [hsw] at h
        simp only [ok_bind] at h
        injection h with h1
        have hi : r.2 = inst' := congrArg Prod.snd h1
        have e1 : r.2.items = p.2.items := sweepValues_items qs p.2 r.1 r.2 (by rw [hsw])
        have e2 : p.2.items = inst.items := pa_items inst q p hpa
        rw [← hi, e1, e2]

theorem sweepValues_ok : ∀ (qs : List Int) (inst : PInstance), (∀ q ∈ qs, 0 ≤ q) →
    ∃ inst' : PInstance,
      sweepValues inst qs = .ok (qs.map (fun q => bestProfit inst.items q.toNat), inst')
        ∧ inst'.items = inst.items
  | [], inst, _ => ⟨inst, rfl, rfl⟩
  | q :: qs, inst, h => by
    obtain ⟨inst', h1, h2⟩ :=
      sweepValues_ok qs (set_value inst q) (fun p hp => h p (List.mem_cons_of_mem _ hp))
    refine ⟨inst', ?_, h2⟩
    rw [sweepValues_cons, parametric_analysis_ok inst q (h q (List.mem_cons_self q qs))]
    simp only [ok_bind]
    rw [h1]
    simp only [ok_bind]
    rfl

theorem sweepValues_abort : ∀ (qs1 : List Int) (inst : PInstance) (q : Int) (qs2 : List Int),
    (∀ p ∈ qs1, 0 ≤ p) → q < 0 →
    sweepValues inst (qs1 ++ q :: qs2) = .error .invalidInput
  | [], inst, q, qs2, _, hq => by
    rw [List.nil_append, sweepValues_cons, parametric_analysis_neg inst q hq, error_bind]
  | p :: qs1, inst, q, qs2, h, hq => by
    rw [List.cons_append, sweepValues_cons,
      parametric_analysis_ok inst p (h p (List.mem_cons_self p qs1))]
    simp only [ok_bind]
    rw [sweepValues_abort qs1 (set_value inst p) q qs2
      (fun x hx => h x (List.mem_cons_of_mem _ hx)) hq]
    rfl

theorem pa_obj_congr (i1 i2 : PInstance) (q : Int) (h : i1.items = i2.items) :
    (parametric_analysis i1 q).map (fun p => p.1)
      = (parametric_analysis i2 q).map (fun p => p.1) := by
  by_cases hq : q < 0
  · rw [parametric_analysis_neg _ _ hq, parametric_analysis_neg _ _ hq]
  · rw [parametric_analysis_ok _ _ (not_lt.mp hq), parametric_analysis_ok _ _ (not_lt.mp hq), h]
    rfl

end Knapsack

namespace PyRandom

theorem opt_bind_some {α β : Type} (a : α) (f : α → Option β) : (some a).bind f = f a := rfl

theorem opt_bind_none {α β : Type} (f : α → Option β) : (none : Option α).bind f = none := rfl

theorem opt_map_some {α β : Type} (f : α → β) (a : α) : (some a).map f = some (f a) := rfl

theorem randbelowLoop_lt (n k : Nat) : ∀ (fuel : Nat) (s : MTState) (r : Nat) (s2 : MTState),
    randbelowLoop n k fuel s = some (r, s2) → r < n
  | 0, _, _, _, h => Option.noConfusion h
  | fuel + 1, s, r, s2, h => by
    rw [rbl_unfold] at h
    by_cases hc : (getrandbits k s).1 < n
    · rw [if_pos hc] at h
      injection h with h1
      have e : (getrandbits k s).1 = r := congrArg Prod.fst h1
      rw [← e]
      exact hc
    · rw [if_neg hc] at h
      exact randbelowLoop_lt n k fuel _ r s2 h

theorem randrange_mem (lo hi : Nat) (s : MTState) (v : Nat) (s2 : MTState)
    (h : randrange lo hi s = some (v, s2)) : lo ≤ v ∧ v < hi := by
  have e : randrange lo hi s
      = (randbelow (hi - lo) s).map fun rs => (lo + rs.1, rs.2) := rfl
  rw [e] at h
  cases hrb : randbelow (hi - lo) s with
  | none => rw [hrb] at h; exact Option.noConfusion h
  | some rs =>
    rw [hrb, opt_map_some] at h
    injection h with h1
    have hv : lo + rs.1 = v := congrArg Prod.fst h1
    have hr : rs.1 < hi - lo :=
      randbelowLoop_lt (hi - lo) (bitLength (hi - lo)) 1000 s rs.1 rs.2 (by rw [← hrb]; rfl)
    omega

theorem drawList_mem (lo hi : Nat) : ∀ (n : Nat) (s : MTState) (vs : List Nat) (s2 : MTState),
    drawList lo hi n s = some (vs, s2) → ∀ v ∈ vs, lo ≤ v ∧ v < hi
  | 0, s, vs, s2, h => by
    simp only [drawList] at h
    injection h with h1
    cases h1
    intro v hv
    exact absurd hv (List.not_mem_nil v)
  | n + 1, s, vs, s2, h => by
    rw [dl_succ] at h
    cases hr : randrange lo hi s with
    | none => rw [hr, opt_bind_none] at h; exact Option.noConfusion h
    | some p =>
      rw [hr, opt_bind_some] at h
      cases hd : drawList lo hi n p.2 with
      | none => rw [hd, opt_bind_none] at h; exact Option.noConfusion h
      | some q =>
        rw [hd, opt_bind_some] at h
        injection h with h1
        have hv : p.1 :: q.1 = vs := congrArg Prod.fst h1
        intro v hvm
        rw [← hv] at hvm
        cases List.mem_cons.mp hvm with
        | inl he => rw [he]; exact randrange_mem lo hi s p.1 p.2 (by rw [hr])
        | inr ht => exact drawList_mem lo hi n p.2 q.1 q.2 (by rw [hd]) v ht

theorem genItems_ranges (n seed : Nat) (items : List Knapsack.Item)
    (h : genItems n seed = some items) :
    ∀ it ∈ items, (10 ≤ it.profit ∧ it.profit < 50) ∧ (1 ≤ it.weight ∧ it.weight < 10) := by
  have e : genItems n seed
      = (drawList 10 50 n (seedMT seed)).bind fun ps =>
          (drawList 1 10 n ps.2).bind fun ws =>
            some ((ps.1.zip ws.1).map fun pw => (⟨pw.2, pw.1⟩ : Knapsack.Item)) := rfl
  rw [e] at h
  cases hp : drawList 10 50 n (seedMT seed) with
  | none => rw [hp, opt_bind_none] at h; exact Option.noConfusion h
  | some ps =>
    rw [hp, opt_bind_some] at h
    cases hw : drawList 1 10 n ps.2 with
    | none => rw [hw, opt_bind_none] at h; exact Option.noConfusion h
    | some ws =>
      rw [hw, opt_bind_some] at h
      injection h with h1
      intro it hit
      rw [← h1] at hit
      obtain ⟨pw, hpw, he⟩ := List.mem_map.mp hit
      obtain ⟨hp1, hw1⟩ := List.of_mem_zip hpw
      rw [← he]
      exact ⟨drawList_mem 10 50 n _ ps.1 ps.2 (by rw [hp]) pw.1 hp1,
        drawList_mem 1 10 n _ ws.1 ws.2 (by rw [hw]) pw.2 hw1⟩

end PyRandom

/-!
The claims.
-/

open Knapsack

/-- C1: for every knapsack instance with non-negative capacity, the selection
returned by the solve operation is optimal: no other selection whose total
weight is within the capacity has strictly greater total profit than the
returned selection's objective value. -/
theorem claim_C1 (items : List Item) (q : Int) (hq : 0 ≤ q)
    (r : SolveResult) (h : solve items q = .ok r) (bs : List Bool)
    (hw : total_weight items bs ≤ q.toNat) :
    obj_function items bs ≤ r.objective := by
  rw [solve_ok items q hq] at h
  injection h with h1
  rw [← h1]
  exact bestProfit_optimal items bs q.toNat hw

/-- Witness for C1: the notebook instance at capacity 20, against the
selection containing only item 1. -/
theorem claim_C1_witness :
    obj_function nbItems
        [true, false, false, false, false, false, false, false, false, false]
      ≤ (SolveResult.mk (solveSel nbItems ((20 : Int)).toNat)
          (bestProfit nbItems ((20 : Int)).toNat)).objective :=
  claim_C1 nbItems 20 (by decide) _ rfl _ (by decide)

/-- C2: every produced selection is feasible (its total weight is at most the
capacity) and the reported objective value equals the total profit of the
included items. -/
theorem claim_C2 (items : List Item) (q : Int) (r : SolveResult)
    (h : solve items q = .ok r) :
    (total_weight items r.selection : Int) ≤ q
      ∧ obj_function items r.selection = r.objective := by
  by_cases hq : q < 0
  · rw [solve_neg items q hq] at h
    exact Except.noConfusion h
  · rw [solve_ok items q (not_lt.mp hq)] at h
    injection h with h1
    rw [← h1]
    constructor
    · show (total_weight items (solveSel items q.toNat) : Int) ≤ q
      have h2 := solveSel_weight items q.toNat
      omega
    · show obj_function items (solveSel items q.toNat) = bestProfit items q.toNat
      exact solveSel_profit items q.toNat

/-- Witness for C2: the notebook instance at capacity 20. -/
theorem claim_C2_witness :
    (total_weight nbItems (SolveResult.mk (solveSel nbItems ((20 : Int)).toNat)
        (bestProfit nbItems ((20 : Int)).toNat)).selection : Int) ≤ 20
      ∧ obj_function nbItems (SolveResult.mk (solveSel nbItems ((20 : Int)).toNat)
          (bestProfit nbItems ((20 : Int)).toNat)).selection
        = (SolveResult.mk (solveSel nbItems ((20 : Int)).toNat)
            (bestProfit nbItems ((20 : Int)).toNat)).objective :=
  claim_C2 nbItems 20 _ rfl

/-- C3: on the seeded 10-item notebook instance, capacity 20 yields optimal
objective exactly 204 with a selection of weight at most 20 (items
1, 3, 5, 6, 7, 9), and capacity 30 yields optimal objective exactly 262. -/
theorem claim_C3 :
    solve nbItems 20
        = .ok ⟨[true, false, true, false, true, true, true, false, true, false], 204⟩
      ∧ total_weight nbItems
          [true, false, true, false, true, true, true, false, true, false] ≤ 20
      ∧ (∀ bs : List Bool, total_weight nbItems bs ≤ 20 → obj_function nbItems bs ≤ 204)
      ∧ solve nbItems 30
          = .ok ⟨[true, false, true, true, true, true, true, false, true, true], 262⟩
      ∧ (∀ bs : List Bool, total_weight nbItems bs ≤ 30 → obj_function nbItems bs ≤ 262) := by
  refine ⟨rfl, by decide, fun bs hw => ?_, rfl, fun bs hw => ?_⟩
  · have h1 := bestProfit_optimal nbItems bs 20 hw
    rw [(by decide : bestProfit nbItems 20 = 204)] at h1
    exact h1
  · have h1 := bestProfit_optimal nbItems bs 30 hw
    rw [(by decide : bestProfit nbItems 30 = 262)] at h1
    exact h1

/-- Witness for C3's universally quantified optimality parts, at the selection
of items 1 and 2. -/
theorem claim_C3_witness :
    (total_weight nbItems
        [true, true, false, false, false, false, false, false, false, false] ≤ 20
      ∧ obj_function nbItems
          [true, true, false, false, false, false, false, false, false, false] ≤ 204)
      ∧ (total_weight nbItems
          [true, true, false, false, false, false, false, false, false, false] ≤ 30
        ∧ obj_function nbItems
            [true, true, false, false, false, false, false, false, false, false] ≤ 262) :=
  ⟨⟨by decide, claim_C3.2.2.1 _ (by decide)⟩, ⟨by decide, claim_C3.2.2.2.2 _ (by decide)⟩⟩

/-- C4: for a fixed item set the optimal objective is monotone non-decreasing
in the capacity, and the sweep over capacities 20, 25, 30, 35, 40, 45 on the
notebook instance returns the non-decreasing objective sequence
204, 236, 262, 272, 298, 315. -/
theorem claim_C4 :
    (∀ (items : List Item) (c1 c2 : Nat), c1 ≤ c2 →
        bestProfit items c1 ≤ bestProfit items c2)
      ∧ sweepValues ⟨nbItems, 20⟩ [20, 25, 30, 35, 40, 45]
          = .ok ([204, 236, 262, 272, 298, 315], ⟨nbItems, 45⟩)
      ∧ List.Pairwise (· ≤ ·) [204, 236, 262, 272, 298, 315] :=
  ⟨fun items c1 c2 h => bestProfit_mono items h, rfl, by decide⟩

/-- Witness for C4's monotonicity at capacities 20 and 30 of the notebook
instance. -/
theorem claim_C4_witness :
    20 ≤ 30 ∧ bestProfit nbItems 20 ≤ bestProfit nbItems 30 :=
  ⟨by decide, claim_C4.1 nbItems 20 30 (by decide)⟩

/-- C5: the model builder is deterministic in its seed, and every generated
item has profit in `[10, 50)` and weight in `[1, 10)`. -/
theorem claim_C5 (n seed : Nat) :
    PyRandom.genItems n seed = PyRandom.genItems n seed
      ∧ ∀ items : List Item, PyRandom.genItems n seed = some items →
          ∀ it ∈ items, (10 ≤ it.profit ∧ it.profit < 50)
            ∧ (1 ≤ it.weight ∧ it.weight < 10) :=
  ⟨rfl, fun items h => PyRandom.genItems_ranges n seed items h⟩

/-- Witness for C5 at seed 0 with 10 items, checking the first generated
item. -/
theorem claim_C5_witness :
    PyRandom.genItems 10 0 = PyRandom.genItems 10 0
      ∧ ((10 ≤ (Item.mk 4 34).profit ∧ (Item.mk 4 34).profit < 50)
        ∧ (1 ≤ (Item.mk 4 34).weight ∧ (Item.mk 4 34).weight < 10)) :=
  ⟨(claim_C5 10 0).1,
    (claim_C5 10 0).2 nbItems PyRandom.genItems_eval (Item.mk 4 34) (by decide)⟩

/-- C6: each solve is a pure function of the items and the capacity; solving
the same pair again after an intervening sweep at other capacities yields the
same objective value. -/
theorem claim_C6 (inst : PInstance) (qs : List Int) (q : Int) (vs : List Nat)
    (inst2 : PInstance) (h : sweepValues inst qs = .ok (vs, inst2)) :
    solve inst.items q = solve inst.items q
      ∧ (parametric_analysis inst2 q).map (fun p => p.1)
        = (parametric_analysis inst q).map (fun p => p.1) :=
  ⟨rfl, pa_obj_congr inst2 inst q (sweepValues_items qs inst vs inst2 h)⟩

/-- Witness for C6: re-solving the notebook instance at capacity 20 after a
sweep through capacities 30 and 25. -/
theorem claim_C6_witness :
    solve (PInstance.mk nbItems 20).items 20 = solve (PInstance.mk nbItems 20).items 20
      ∧ (parametric_analysis (PInstance.mk nbItems 25) 20).map (fun p => p.1)
        = (parametric_analysis (PInstance.mk nbItems 20) 20).map (fun p => p.1) :=
  claim_C6 ⟨nbItems, 20⟩ [30, 25] 20 [262, 236] ⟨nbItems, 25⟩ rfl

/-- C7: for non-negative capacities the sweep driver returns one objective per
input capacity, in input order (so the capacity-objective pairs are in input
order), and the underlying item set is unchanged after the sweep. -/
theorem claim_C7 (inst : PInstance) (qs : List Int) (h : ∀ q ∈ qs, 0 ≤ q) :
    ∃ inst2 : PInstance,
      sweepValues inst qs
          = .ok (qs.map (fun q => bestProfit inst.items q.toNat), inst2)
        ∧ inst2.items = inst.items
        ∧ (qs.map fun q => (q, bestProfit inst.items q.toNat)).length = qs.length := by
  obtain ⟨inst2, h1, h2⟩ := sweepValues_ok qs inst h
  exact ⟨inst2, h1, h2, by rw [List.length_map]⟩

/-- Witness for C7: the notebook instance swept through capacities 20 and
30. -/
theorem claim_C7_witness :
    ∃ inst2 : PInstance,
      sweepValues ⟨nbItems, 20⟩ [20, 30]
          = .ok (([20, 30] : List Int).map
              (fun q => bestProfit (PInstance.mk nbItems 20).items q.toNat), inst2)
        ∧ inst2.items = (PInstance.mk nbItems 20).items
        ∧ (([20, 30] : List Int).map
            fun q => (q, bestProfit (PInstance.mk nbItems 20).items q.toNat)).length
          = ([20, 30] : List Int).length :=
  claim_C7 ⟨nbItems, 20⟩ [20, 30] (by decide)

/-- C8: a negative capacity is rejected with an invalid-input error before any
solve is attempted; no selection is returned. -/
theorem claim_C8 (items : List Item) (q : Int) (hq : q < 0) :
    solve items q = .error SolveError.invalidInput :=
  solve_neg items q hq

/-- Witness for C8 at capacity -1 on the notebook items. -/
theorem claim_C8_witness :
    (-1 : Int) < 0 ∧ solve nbItems (-1) = .error SolveError.invalidInput :=
  ⟨by decide, claim_C8 nbItems (-1) (by decide)⟩

/-- C9 counterexample: sweeping the notebook instance through capacities
20, -1, 30, the failing point -1 aborts the whole sweep — no result is
returned for the subsequent capacity 30, contradicting the claim that the
sweep continues with subsequent capacity values. -/
theorem claim_C9_counterexample :
    sweepValues ⟨nbItems, 20⟩ [20, -1, 30] = .error SolveError.invalidInput := rfl

/-- C9 (amended): when a solve for one capacity fails, the error propagates to
the caller of the sweep driver and the whole remainder of the sweep is
aborted: the sweep returns the error and produces no results, in particular
none for the capacities after the failing one. -/
theorem claim_C9 (qs1 : List Int) (inst : PInstance) (q : Int) (qs2 : List Int)
    (h : ∀ p ∈ qs1, 0 ≤ p) (hq : q < 0) :
    sweepValues inst (qs1 ++ q :: qs2) = .error SolveError.invalidInput :=
  sweepValues_abort qs1 inst q qs2 h hq

/-- Witness for C9 (amended) at the sweep 20, -1, 30. -/
theorem claim_C9_witness :
    (∀ p ∈ ([20] : List Int), 0 ≤ p) ∧ (-1 : Int) < 0
      ∧ sweepValues ⟨nbItems, 20⟩ (([20] : List Int) ++ (-1) :: [30])
        = .error SolveError.invalidInput :=
  ⟨by decide, by decide, claim_C9 [20] ⟨nbItems, 20⟩ (-1) [30] (by decide) (by decide)⟩

/-- C10: with seed 0 and 10 items the generator draws the ten profits
34, 36, 12, 26, 42, 41, 35, 29, 40, 32 and then the ten weights
4, 9, 3, 5, 3, 2, 5, 9, 3, 5 from the single seeded stream; the regression
objectives 204 and 262 follow from these values, and the alternative
interleaved draw order produces a different item set. -/
theorem claim_C10 :
    PyRandom.genItems 10 0 = some nbItems
      ∧ nbItems = [⟨4, 34⟩, ⟨9, 36⟩, ⟨3, 12⟩, ⟨5, 26⟩, ⟨3, 42⟩,
          ⟨2, 41⟩, ⟨5, 35⟩, ⟨9, 29⟩, ⟨3, 40⟩, ⟨5, 32⟩]
      ∧ bestProfit nbItems 20 = 204 ∧ bestProfit nbItems 30 = 262
      ∧ PyRandom.genItemsInterleaved 10 0 ≠ PyRandom.genItems 10 0 := by
  refine ⟨PyRandom.genItems_eval, rfl, by decide, by decide, ?_⟩
  rw [PyRandom.genItemsInterleaved_eval, PyRandom.genItems_eval]
  decide
